import Mathlib

/-!
Shallow embedding of the NLP analysis module of the visabot repository
(src/bot/ai_nlp.py) and proofs about its documented behaviour.

Modelling conventions:
* Python strings are Lean `String` values; substring containment, substring
  counting, lowercasing and whitespace handling are implemented over `List Char`.
* Python `float` score arithmetic uses only the exact binary values
  3.0, 1.5, 0.5, 2.0, 6.0, 1.0 and divisions thereof, which are modelled as
  exact rationals (`Rat`); the one comparison against the non-dyadic literal
  0.3 is far from every reachable score (reachable confidences are multiples
  of 1/12, and neither 1/4 nor 1/3 is within float rounding error of 0.3),
  so the rational model agrees with the float semantics on every input.
* Python dicts become association lists with insertion-order semantics:
  assignment updates the first matching key in place or appends a new key.
* The word-boundary regex in CountryDatabase.find_country is kept as an
  abstract boolean predicate parameter `wb`; the surrounding code appends the
  same match in both branches, so every theorem is proved for all `wb`.
* Python set iteration order (over Country.names) is process-dependent; the
  model fixes the textual order of the source.  All theorems below are
  insensitive to this order.
-/

namespace VisaBot

/-- Lowercasing of a single character as Python str.lower performs it on the
alphabets used by this program: ASCII, Russian Cyrillic (А-Я, Ё) and the
additional Kazakh Cyrillic capitals. Other characters are left unchanged. -/
def toLowerPy (c : Char) : Char :=
  if 'A' ≤ c ∧ c ≤ 'Z' then Char.ofNat (c.toNat + 32)
  else if 'А' ≤ c ∧ c ≤ 'Я' then Char.ofNat (c.toNat + 32)
  else if c = 'Ё' then 'ё'
  else if c = 'Ә' then 'ә'
  else if c = 'Ғ' then 'ғ'
  else if c = 'Қ' then 'қ'
  else if c = 'Ң' then 'ң'
  else if c = 'Ө' then 'ө'
  else if c = 'Ұ' then 'ұ'
  else if c = 'Ү' then 'ү'
  else if c = 'Һ' then 'һ'
  else if c = 'І' then 'і'
  else c

/-- Python text.lower() on a whole string. -/
def lowerPy (s : String) : String := ⟨s.data.map toLowerPy⟩

/-- Containment of one character list in another as a contiguous run,
the Python `needle in hay` test. -/
def subListIn (sub : List Char) : List Char → Bool
  | [] => sub.isEmpty
  | c :: rest => sub.isPrefixOf (c :: rest) || subListIn sub rest

/-- Python `needle in hay` on strings. -/
def containsSub (needle hay : String) : Bool := subListIn needle.data hay.data

/-- Python hay.count(needle): number of non-overlapping occurrences, scanning
from the left.  After a match, the remaining length of the match is skipped
before scanning resumes.  The counter argument holds the number of
characters still to skip. -/
def countOccsAux (sub : List Char) : Nat → List Char → Nat
  | _, [] => 0
  | 0, c :: rest =>
    if sub.isPrefixOf (c :: rest) then 1 + countOccsAux sub (sub.length - 1) rest
    else countOccsAux sub 0 rest
  | k + 1, _ :: rest => countOccsAux sub k rest

/-- Python hay.count(needle).  Python defines the count of the empty string
as length + 1. -/
def countOccs (sub : List Char) (text : List Char) : Nat :=
  if sub.isEmpty then text.length + 1 else countOccsAux sub 0 text

/-- The characters the Python regex class \s matches in the texts this
program processes (ASCII whitespace). -/
def isPySpace (c : Char) : Bool :=
  c = ' ' || c = '\t' || c = '\n' || c = '\r' || c = '\x0b' || c = '\x0c'

/-- re.sub applied with the tag pattern: each leftmost run of the shape
open angle bracket, one or more characters other than the closing bracket,
closing bracket, is replaced by a single space.  The state argument is the
reversed buffer of characters consumed since an unresolved open bracket,
or none when scanning outside a candidate tag; an open bracket that turns
out not to start a match is emitted literally, exactly as the regex engine
leaves unmatched positions untouched. -/
def stripTagsAux : Option (List Char) → List Char → List Char
  | none, [] => []
  | none, c :: rest =>
    if c = '<' then stripTagsAux (some [c]) rest else c :: stripTagsAux none rest
  | some buf, [] => buf.reverse
  | some buf, c :: rest =>
    if c = '>' then
      if 2 ≤ buf.length then ' ' :: stripTagsAux none rest
      else buf.reverse ++ c :: stripTagsAux none rest
    else stripTagsAux (some (c :: buf)) rest

/-- re.sub applied with the tag pattern on a whole text. -/
def stripTags (l : List Char) : List Char := stripTagsAux none l

/-- re.sub applied with the whitespace pattern: each maximal nonempty run of
whitespace is replaced by a single space.  The flag records whether the
scanner is inside a whitespace run whose space has been emitted. -/
def collapseWsAux : Bool → List Char → List Char
  | _, [] => []
  | inRun, c :: rest =>
    if isPySpace c then
      if inRun then collapseWsAux true rest else ' ' :: collapseWsAux true rest
    else c :: collapseWsAux false rest

/-- re.sub applied with the whitespace pattern on a whole text. -/
def collapseWs (l : List Char) : List Char := collapseWsAux false l

/-- Python text.strip(). -/
def pyStrip (l : List Char) : List Char :=
  ((l.dropWhile isPySpace).reverse.dropWhile isPySpace).reverse

/-- TextAnalyzer.normalize_text with the default maximum length 8000:
drop HTML-like tags, collapse whitespace, keep the final 8000 characters,
strip and lowercase. -/
def normalize_text (text : String) : String :=
  let t1 := stripTags text.data
  let t2 := collapseWs t1
  let t3 := if t2.length > 8000 then t2.drop (t2.length - 8000) else t2
  ⟨(pyStrip t3).map toLowerPy⟩

/-! Enumerations of the module. -/

/-- Language enum. -/
inductive Language where
  | RUSSIAN
  | ENGLISH
  | KAZAKH
deriving DecidableEq

/-- Intent enum, in source declaration order. -/
inductive Intent where
  | WANT_APPLY
  | SEND_DOCS
  | INFO_REQUEST
  | FOLLOWUP
  | COMPLAINT
  | GRATITUDE
  | CANCELLATION
  | RESCHEDULE
  | PAYMENT
  | OTHER
deriving DecidableEq

/-- LeadStatus enum, in source declaration order. -/
inductive LeadStatus where
  | NEW
  | INFO_PROVIDED
  | QUESTIONNAIRE_SENT
  | QUESTIONNAIRE_FILLED
  | DOCS_IN_PROGRESS
  | DOCS_COLLECTED
  | READY_FOR_SUBMISSION
  | SUBMITTED
  | INTERVIEW_SCHEDULED
  | APPROVED
  | REJECTED
  | COMPLETED
  | CANCELLED
deriving DecidableEq

/-- The string value of each LeadStatus member. -/
def LeadStatus.value : LeadStatus → String
  | .NEW => "new"
  | .INFO_PROVIDED => "info_provided"
  | .QUESTIONNAIRE_SENT => "questionnaire_sent"
  | .QUESTIONNAIRE_FILLED => "questionnaire_filled"
  | .DOCS_IN_PROGRESS => "docs_in_progress"
  | .DOCS_COLLECTED => "docs_collected"
  | .READY_FOR_SUBMISSION => "ready_for_submission"
  | .SUBMITTED => "submitted"
  | .INTERVIEW_SCHEDULED => "interview_scheduled"
  | .APPROVED => "approved"
  | .REJECTED => "rejected"
  | .COMPLETED => "completed"
  | .CANCELLED => "cancelled"

/-- All LeadStatus members, the closed enumeration. -/
def LeadStatus.all : List LeadStatus :=
  [.NEW, .INFO_PROVIDED, .QUESTIONNAIRE_SENT, .QUESTIONNAIRE_FILLED,
   .DOCS_IN_PROGRESS, .DOCS_COLLECTED, .READY_FOR_SUBMISSION, .SUBMITTED,
   .INTERVIEW_SCHEDULED, .APPROVED, .REJECTED, .COMPLETED, .CANCELLED]

/-- LeadStatus.from_string: None or the empty string give the default NEW;
otherwise the lowercased string is looked up among the enum values, with
NEW again as the fallback for unknown values. -/
def LeadStatus.from_string (s : Option String) : LeadStatus :=
  match s with
  | none => .NEW
  | some str =>
    if str = "" then .NEW
    else (LeadStatus.all.find? (fun st => st.value = lowerPy str)).getD .NEW

/-- UrgencyLevel enum. -/
inductive UrgencyLevel where
  | CRITICAL
  | HIGH
  | MEDIUM
  | NORMAL
  | LOW
deriving DecidableEq

/-- VisaCategory enum. -/
inductive VisaCategory where
  | STANDARD
  | NON_STANDARD
  | SIMPLE
deriving DecidableEq


/-! Python dict model: association lists with insertion-order semantics. -/

/-- Python dict lookup d.get(k): first binding of the key, if any. -/
def dictGet? {κ β : Type} [DecidableEq κ] (k : κ) : List (κ × β) → Option β
  | [] => none
  | (k', v) :: rest => if k' = k then some v else dictGet? k rest

/-- Python dict assignment d[k] = v: update the first binding in place,
or append the key at the end when absent. -/
def dictSet {κ β : Type} [DecidableEq κ] (k : κ) (v : β) : List (κ × β) → List (κ × β)
  | [] => [(k, v)]
  | (k', v') :: rest => if k' = k then (k', v) :: rest else (k', v') :: dictSet k v rest

/-! Data model of the country knowledge base. -/

/-- Country record of the module. -/
structure Country where
  code : String
  names : List String
  category : VisaCategory
  form_type : Option String := none
  processing_notes : Option String := none
deriving DecidableEq

def countriesData : List Country := [
  { code := "PL", names := ["poland", "польша", "польшу", "польши", "warsaw", "варшава", "варшаву", "krakow", "краков", "gdansk", "гданьск", "wroclaw", "вроцлав"], category := VisaCategory.STANDARD, form_type := some "poland", processing_notes := none },
  { code := "US", names := ["usa", "u.s.", "u.s.a.", "united states", "america", "америка", "сша", "штаты", "соединённые штаты", "new york", "нью-йорк", "los angeles", "лос-анджелес", "washington", "вашингтон", "california", "калифорния", "florida", "флорида", "texas", "техас"], category := VisaCategory.STANDARD, form_type := some "usa", processing_notes := none },
  { code := "FR", names := ["france", "франция", "францию", "франции", "paris", "париж", "nice", "ницца", "lyon", "лион", "marseille", "марсель"], category := VisaCategory.STANDARD, form_type := some "schengen", processing_notes := none },
  { code := "DE", names := ["germany", "германия", "германию", "германии", "berlin", "берлин", "munich", "мюнхен", "frankfurt", "франкфурт", "hamburg", "гамбург"], category := VisaCategory.STANDARD, form_type := some "schengen", processing_notes := none },
  { code := "IT", names := ["italy", "италия", "италию", "италии", "rome", "рим", "roma", "milan", "милан", "venice", "венеция", "florence", "флоренция"], category := VisaCategory.STANDARD, form_type := some "schengen", processing_notes := none },
  { code := "ES", names := ["spain", "испания", "испанию", "испании", "barcelona", "барселона", "madrid", "мадрид", "valencia", "валенсия", "seville", "севилья"], category := VisaCategory.STANDARD, form_type := some "schengen", processing_notes := none },
  { code := "NL", names := ["netherlands", "нидерланды", "голландия", "holland", "amsterdam", "амстердам", "rotterdam", "роттердам", "hague", "гаага"], category := VisaCategory.STANDARD, form_type := some "schengen", processing_notes := none },
  { code := "AT", names := ["austria", "австрия", "австрию", "вена", "vienna", "wien", "salzburg", "зальцбург", "innsbruck", "инсбрук"], category := VisaCategory.STANDARD, form_type := some "schengen", processing_notes := none },
  { code := "BE", names := ["belgium", "бельгия", "бельгию", "brussels", "брюссель", "bruges", "брюгге", "antwerp", "антверпен"], category := VisaCategory.STANDARD, form_type := some "schengen", processing_notes := none },
  { code := "CZ", names := ["czech", "чехия", "чехию", "prague", "прага", "brno", "брно"], category := VisaCategory.STANDARD, form_type := some "schengen", processing_notes := none },
  { code := "PT", names := ["portugal", "португалия", "португалию", "lisbon", "лиссабон", "porto", "порту"], category := VisaCategory.STANDARD, form_type := some "schengen", processing_notes := none },
  { code := "GR", names := ["greece", "греция", "грецию", "athens", "афины", "santorini", "санторини", "crete", "крит", "rhodes", "родос"], category := VisaCategory.STANDARD, form_type := some "schengen", processing_notes := none },
  { code := "HU", names := ["hungary", "венгрия", "венгрию", "budapest", "будапешт"], category := VisaCategory.STANDARD, form_type := some "schengen", processing_notes := none },
  { code := "CH", names := ["switzerland", "швейцария", "швейцарию", "zurich", "цюрих", "geneva", "женева", "bern", "берн"], category := VisaCategory.STANDARD, form_type := some "schengen", processing_notes := none },
  { code := "SE", names := ["sweden", "швеция", "швецию", "stockholm", "стокгольм"], category := VisaCategory.STANDARD, form_type := some "schengen", processing_notes := none },
  { code := "NO", names := ["norway", "норвегия", "норвегию", "oslo", "осло"], category := VisaCategory.STANDARD, form_type := some "schengen", processing_notes := none },
  { code := "FI", names := ["finland", "финляндия", "финляндию", "helsinki", "хельсинки"], category := VisaCategory.STANDARD, form_type := some "schengen", processing_notes := none },
  { code := "DK", names := ["denmark", "дания", "данию", "copenhagen", "копенгаген"], category := VisaCategory.STANDARD, form_type := some "schengen", processing_notes := none },
  { code := "GB", names := ["uk", "united kingdom", "great britain", "england", "британия", "великобритания", "англия", "london", "лондон", "manchester", "манчестер", "liverpool", "ливерпуль", "scotland", "шотландия"], category := VisaCategory.NON_STANDARD, form_type := none, processing_notes := some "Требуется отдельная британская виза" },
  { code := "CA", names := ["canada", "канада", "канаду", "toronto", "торонто", "vancouver", "ванкувер", "montreal", "монреаль", "ottawa", "оттава"], category := VisaCategory.NON_STANDARD, form_type := none, processing_notes := some "Требуется eTA или виза" },
  { code := "AU", names := ["australia", "австралия", "австралию", "sydney", "сидней", "melbourne", "мельбурн", "brisbane", "брисбен"], category := VisaCategory.NON_STANDARD, form_type := none, processing_notes := some "Требуется ETA или виза" },
  { code := "NZ", names := ["new zealand", "новая зеландия", "wellington", "веллингтон", "auckland", "окленд"], category := VisaCategory.NON_STANDARD, form_type := none, processing_notes := none },
  { code := "JP", names := ["japan", "япония", "японию", "tokyo", "токио", "osaka", "осака", "kyoto", "киото"], category := VisaCategory.NON_STANDARD, form_type := none, processing_notes := none },
  { code := "CN", names := ["china", "китай", "beijing", "пекин", "shanghai", "шанхай", "guangzhou", "гуанчжоу", "shenzhen", "шэньчжэнь"], category := VisaCategory.NON_STANDARD, form_type := none, processing_notes := none },
  { code := "KR", names := ["south korea", "korea", "корея", "южная корея", "seoul", "сеул", "busan", "пусан"], category := VisaCategory.NON_STANDARD, form_type := none, processing_notes := none },
  { code := "IN", names := ["india", "индия", "индию", "delhi", "дели", "mumbai", "мумбаи", "bangalore", "бангалор"], category := VisaCategory.NON_STANDARD, form_type := none, processing_notes := none },
  { code := "BR", names := ["brazil", "бразилия", "бразилию", "rio", "рио", "sao paulo", "сан-паулу"], category := VisaCategory.NON_STANDARD, form_type := none, processing_notes := none },
  { code := "AR", names := ["argentina", "аргентина", "аргентину", "buenos aires", "буэнос-айрес"], category := VisaCategory.NON_STANDARD, form_type := none, processing_notes := none },
  { code := "MX", names := ["mexico", "мексика", "мексику", "cancun", "канкун", "mexico city", "мехико"], category := VisaCategory.NON_STANDARD, form_type := none, processing_notes := none },
  { code := "TR", names := ["turkey", "турция", "турцию", "istanbul", "стамбул", "истанбул", "antalya", "анталия", "ankara", "анкара"], category := VisaCategory.NON_STANDARD, form_type := none, processing_notes := none },
  { code := "AE", names := ["uae", "emirates", "эмираты", "оаэ", "dubai", "дубай", "abu dhabi", "абу-даби"], category := VisaCategory.NON_STANDARD, form_type := none, processing_notes := none },
  { code := "SA", names := ["saudi arabia", "саудовская аравия", "riyadh", "эр-рияд", "jeddah", "джидда", "mecca", "мекка"], category := VisaCategory.NON_STANDARD, form_type := none, processing_notes := none },
  { code := "ZA", names := ["south africa", "юар", "южная африка", "johannesburg", "йоханнесбург", "cape town", "кейптаун"], category := VisaCategory.NON_STANDARD, form_type := none, processing_notes := none },
  { code := "EG", names := ["egypt", "египет", "sharm", "шарм", "hurghada", "хургада", "cairo", "каир"], category := VisaCategory.NON_STANDARD, form_type := none, processing_notes := none },
  { code := "TH", names := ["thailand", "tailand", "таиланд", "тайланд", "phuket", "пхукет", "bangkok", "бангкок", "pattaya", "паттайя"], category := VisaCategory.NON_STANDARD, form_type := none, processing_notes := none },
  { code := "VN", names := ["vietnam", "вьетнам", "hanoi", "ханой", "ho chi minh", "хошимин", "saigon", "сайгон"], category := VisaCategory.NON_STANDARD, form_type := none, processing_notes := none },
  { code := "SG", names := ["singapore", "сингапур"], category := VisaCategory.NON_STANDARD, form_type := none, processing_notes := none },
  { code := "MY", names := ["malaysia", "малайзия", "kuala lumpur", "куала-лумпур"], category := VisaCategory.NON_STANDARD, form_type := none, processing_notes := none },
  { code := "ID", names := ["indonesia", "индонезия", "bali", "бали", "jakarta", "джакарта"], category := VisaCategory.NON_STANDARD, form_type := none, processing_notes := none },
  { code := "IL", names := ["israel", "израиль", "tel aviv", "тель-авив", "jerusalem", "иерусалим"], category := VisaCategory.NON_STANDARD, form_type := none, processing_notes := none },
  { code := "SCHENGEN", names := ["schengen", "шенген", "шенгенскую", "шенгенская", "шенгенской", "шенгенскую визу", "schengen visa", "europe", "европа", "европу", "евросоюз", "eu"], category := VisaCategory.STANDARD, form_type := some "schengen", processing_notes := none }]


/-- CountryDatabase keyword index as built at startup: for each country in
order, every lowercased name is assigned to the country code by dict
assignment. -/
def buildKeywordIndex : List (String × String) :=
  countriesData.foldl
    (fun idx c => c.names.foldl (fun idx2 n => dictSet (lowerPy n) c.code idx2) idx) []

/-- The keyword index written out: since no two countries share a keyword,
the build is a plain accumulation.  keywordIndex_eq_build below verifies
this list against the startup fold. -/
def keywordIndex : List (String × String) := [
  ("poland", "PL"),
  ("польша", "PL"),
  ("польшу", "PL"),
  ("польши", "PL"),
  ("warsaw", "PL"),
  ("варшава", "PL"),
  ("варшаву", "PL"),
  ("krakow", "PL"),
  ("краков", "PL"),
  ("gdansk", "PL"),
  ("гданьск", "PL"),
  ("wroclaw", "PL"),
  ("вроцлав", "PL"),
  ("usa", "US"),
  ("u.s.", "US"),
  ("u.s.a.", "US"),
  ("united states", "US"),
  ("america", "US"),
  ("америка", "US"),
  ("сша", "US"),
  ("штаты", "US"),
  ("соединённые штаты", "US"),
  ("new york", "US"),
  ("нью-йорк", "US"),
  ("los angeles", "US"),
  ("лос-анджелес", "US"),
  ("washington", "US"),
  ("вашингтон", "US"),
  ("california", "US"),
  ("калифорния", "US"),
  ("florida", "US"),
  ("флорида", "US"),
  ("texas", "US"),
  ("техас", "US"),
  ("france", "FR"),
  ("франция", "FR"),
  ("францию", "FR"),
  ("франции", "FR"),
  ("paris", "FR"),
  ("париж", "FR"),
  ("nice", "FR"),
  ("ницца", "FR"),
  ("lyon", "FR"),
  ("лион", "FR"),
  ("marseille", "FR"),
  ("марсель", "FR"),
  ("germany", "DE"),
  ("германия", "DE"),
  ("германию", "DE"),
  ("германии", "DE"),
  ("berlin", "DE"),
  ("берлин", "DE"),
  ("munich", "DE"),
  ("мюнхен", "DE"),
  ("frankfurt", "DE"),
  ("франкфурт", "DE"),
  ("hamburg", "DE"),
  ("гамбург", "DE"),
  ("italy", "IT"),
  ("италия", "IT"),
  ("италию", "IT"),
  ("италии", "IT"),
  ("rome", "IT"),
  ("рим", "IT"),
  ("roma", "IT"),
  ("milan", "IT"),
  ("милан", "IT"),
  ("venice", "IT"),
  ("венеция", "IT"),
  ("florence", "IT"),
  ("флоренция", "IT"),
  ("spain", "ES"),
  ("испания", "ES"),
  ("испанию", "ES"),
  ("испании", "ES"),
  ("barcelona", "ES"),
  ("барселона", "ES"),
  ("madrid", "ES"),
  ("мадрид", "ES"),
  ("valencia", "ES"),
  ("валенсия", "ES"),
  ("seville", "ES"),
  ("севилья", "ES"),
  ("netherlands", "NL"),
  ("нидерланды", "NL"),
  ("голландия", "NL"),
  ("holland", "NL"),
  ("amsterdam", "NL"),
  ("амстердам", "NL"),
  ("rotterdam", "NL"),
  ("роттердам", "NL"),
  ("hague", "NL"),
  ("гаага", "NL"),
  ("austria", "AT"),
  ("австрия", "AT"),
  ("австрию", "AT"),
  ("вена", "AT"),
  ("vienna", "AT"),
  ("wien", "AT"),
  ("salzburg", "AT"),
  ("зальцбург", "AT"),
  ("innsbruck", "AT"),
  ("инсбрук", "AT"),
  ("belgium", "BE"),
  ("бельгия", "BE"),
  ("бельгию", "BE"),
  ("brussels", "BE"),
  ("брюссель", "BE"),
  ("bruges", "BE"),
  ("брюгге", "BE"),
  ("antwerp", "BE"),
  ("антверпен", "BE"),
  ("czech", "CZ"),
  ("чехия", "CZ"),
  ("чехию", "CZ"),
  ("prague", "CZ"),
  ("прага", "CZ"),
  ("brno", "CZ"),
  ("брно", "CZ"),
  ("portugal", "PT"),
  ("португалия", "PT"),
  ("португалию", "PT"),
  ("lisbon", "PT"),
  ("лиссабон", "PT"),
  ("porto", "PT"),
  ("порту", "PT"),
  ("greece", "GR"),
  ("греция", "GR"),
  ("грецию", "GR"),
  ("athens", "GR"),
  ("афины", "GR"),
  ("santorini", "GR"),
  ("санторини", "GR"),
  ("crete", "GR"),
  ("крит", "GR"),
  ("rhodes", "GR"),
  ("родос", "GR"),
  ("hungary", "HU"),
  ("венгрия", "HU"),
  ("венгрию", "HU"),
  ("budapest", "HU"),
  ("будапешт", "HU"),
  ("switzerland", "CH"),
  ("швейцария", "CH"),
  ("швейцарию", "CH"),
  ("zurich", "CH"),
  ("цюрих", "CH"),
  ("geneva", "CH"),
  ("женева", "CH"),
  ("bern", "CH"),
  ("берн", "CH"),
  ("sweden", "SE"),
  ("швеция", "SE"),
  ("швецию", "SE"),
  ("stockholm", "SE"),
  ("стокгольм", "SE"),
  ("norway", "NO"),
  ("норвегия", "NO"),
  ("норвегию", "NO"),
  ("oslo", "NO"),
  ("осло", "NO"),
  ("finland", "FI"),
  ("финляндия", "FI"),
  ("финляндию", "FI"),
  ("helsinki", "FI"),
  ("хельсинки", "FI"),
  ("denmark", "DK"),
  ("дания", "DK"),
  ("данию", "DK"),
  ("copenhagen", "DK"),
  ("копенгаген", "DK"),
  ("uk", "GB"),
  ("united kingdom", "GB"),
  ("great britain", "GB"),
  ("england", "GB"),
  ("британия", "GB"),
  ("великобритания", "GB"),
  ("англия", "GB"),
  ("london", "GB"),
  ("лондон", "GB"),
  ("manchester", "GB"),
  ("манчестер", "GB"),
  ("liverpool", "GB"),
  ("ливерпуль", "GB"),
  ("scotland", "GB"),
  ("шотландия", "GB"),
  ("canada", "CA"),
  ("канада", "CA"),
  ("канаду", "CA"),
  ("toronto", "CA"),
  ("торонто", "CA"),
  ("vancouver", "CA"),
  ("ванкувер", "CA"),
  ("montreal", "CA"),
  ("монреаль", "CA"),
  ("ottawa", "CA"),
  ("оттава", "CA"),
  ("australia", "AU"),
  ("австралия", "AU"),
  ("австралию", "AU"),
  ("sydney", "AU"),
  ("сидней", "AU"),
  ("melbourne", "AU"),
  ("мельбурн", "AU"),
  ("brisbane", "AU"),
  ("брисбен", "AU"),
  ("new zealand", "NZ"),
  ("новая зеландия", "NZ"),
  ("wellington", "NZ"),
  ("веллингтон", "NZ"),
  ("auckland", "NZ"),
  ("окленд", "NZ"),
  ("japan", "JP"),
  ("япония", "JP"),
  ("японию", "JP"),
  ("tokyo", "JP"),
  ("токио", "JP"),
  ("osaka", "JP"),
  ("осака", "JP"),
  ("kyoto", "JP"),
  ("киото", "JP"),
  ("china", "CN"),
  ("китай", "CN"),
  ("beijing", "CN"),
  ("пекин", "CN"),
  ("shanghai", "CN"),
  ("шанхай", "CN"),
  ("guangzhou", "CN"),
  ("гуанчжоу", "CN"),
  ("shenzhen", "CN"),
  ("шэньчжэнь", "CN"),
  ("south korea", "KR"),
  ("korea", "KR"),
  ("корея", "KR"),
  ("южная корея", "KR"),
  ("seoul", "KR"),
  ("сеул", "KR"),
  ("busan", "KR"),
  ("пусан", "KR"),
  ("india", "IN"),
  ("индия", "IN"),
  ("индию", "IN"),
  ("delhi", "IN"),
  ("дели", "IN"),
  ("mumbai", "IN"),
  ("мумбаи", "IN"),
  ("bangalore", "IN"),
  ("бангалор", "IN"),
  ("brazil", "BR"),
  ("бразилия", "BR"),
  ("бразилию", "BR"),
  ("rio", "BR"),
  ("рио", "BR"),
  ("sao paulo", "BR"),
  ("сан-паулу", "BR"),
  ("argentina", "AR"),
  ("аргентина", "AR"),
  ("аргентину", "AR"),
  ("buenos aires", "AR"),
  ("буэнос-айрес", "AR"),
  ("mexico", "MX"),
  ("мексика", "MX"),
  ("мексику", "MX"),
  ("cancun", "MX"),
  ("канкун", "MX"),
  ("mexico city", "MX"),
  ("мехико", "MX"),
  ("turkey", "TR"),
  ("турция", "TR"),
  ("турцию", "TR"),
  ("istanbul", "TR"),
  ("стамбул", "TR"),
  ("истанбул", "TR"),
  ("antalya", "TR"),
  ("анталия", "TR"),
  ("ankara", "TR"),
  ("анкара", "TR"),
  ("uae", "AE"),
  ("emirates", "AE"),
  ("эмираты", "AE"),
  ("оаэ", "AE"),
  ("dubai", "AE"),
  ("дубай", "AE"),
  ("abu dhabi", "AE"),
  ("абу-даби", "AE"),
  ("saudi arabia", "SA"),
  ("саудовская аравия", "SA"),
  ("riyadh", "SA"),
  ("эр-рияд", "SA"),
  ("jeddah", "SA"),
  ("джидда", "SA"),
  ("mecca", "SA"),
  ("мекка", "SA"),
  ("south africa", "ZA"),
  ("юар", "ZA"),
  ("южная африка", "ZA"),
  ("johannesburg", "ZA"),
  ("йоханнесбург", "ZA"),
  ("cape town", "ZA"),
  ("кейптаун", "ZA"),
  ("egypt", "EG"),
  ("египет", "EG"),
  ("sharm", "EG"),
  ("шарм", "EG"),
  ("hurghada", "EG"),
  ("хургада", "EG"),
  ("cairo", "EG"),
  ("каир", "EG"),
  ("thailand", "TH"),
  ("tailand", "TH"),
  ("таиланд", "TH"),
  ("тайланд", "TH"),
  ("phuket", "TH"),
  ("пхукет", "TH"),
  ("bangkok", "TH"),
  ("бангкок", "TH"),
  ("pattaya", "TH"),
  ("паттайя", "TH"),
  ("vietnam", "VN"),
  ("вьетнам", "VN"),
  ("hanoi", "VN"),
  ("ханой", "VN"),
  ("ho chi minh", "VN"),
  ("хошимин", "VN"),
  ("saigon", "VN"),
  ("сайгон", "VN"),
  ("singapore", "SG"),
  ("сингапур", "SG"),
  ("malaysia", "MY"),
  ("малайзия", "MY"),
  ("kuala lumpur", "MY"),
  ("куала-лумпур", "MY"),
  ("indonesia", "ID"),
  ("индонезия", "ID"),
  ("bali", "ID"),
  ("бали", "ID"),
  ("jakarta", "ID"),
  ("джакарта", "ID"),
  ("israel", "IL"),
  ("израиль", "IL"),
  ("tel aviv", "IL"),
  ("тель-авив", "IL"),
  ("jerusalem", "IL"),
  ("иерусалим", "IL"),
  ("schengen", "SCHENGEN"),
  ("шенген", "SCHENGEN"),
  ("шенгенскую", "SCHENGEN"),
  ("шенгенская", "SCHENGEN"),
  ("шенгенской", "SCHENGEN"),
  ("шенгенскую визу", "SCHENGEN"),
  ("schengen visa", "SCHENGEN"),
  ("europe", "SCHENGEN"),
  ("европа", "SCHENGEN"),
  ("европу", "SCHENGEN"),
  ("евросоюз", "SCHENGEN"),
  ("eu", "SCHENGEN")]

/-- CountryDatabase code-to-country dictionary as built at startup. -/
def buildCountriesDict : List (String × Country) :=
  countriesData.foldl (fun d c => dictSet c.code c d) []

/-- The code dictionary written out: country codes are unique, so the build
is a plain accumulation.  countriesDict_eq_build below verifies this against
the startup fold. -/
def countriesDict : List (String × Country) :=
  countriesData.map (fun c => (c.code, c))

/-- One step of the match-collection loop of find_country: a keyword
contained in the lowercased text is recorded with its length, through a
word-boundary regex branch (`wb`) whose fallback repeats the same
containment test and records the same pair. -/
def matchStep (wb : String → String → Bool) (tl : String)
    (ms : List (String × Nat)) (kc : String × String) : List (String × Nat) :=
  if containsSub kc.1 tl then
    if wb kc.1 tl then ms ++ [(kc.2, kc.1.length)]
    else if containsSub kc.1 tl then ms ++ [(kc.2, kc.1.length)]
    else ms
  else ms

/-- The sort of find_country: a stable sort on keyword length, decreasing.
Python list.sort is stable, so any stable sort under the same key produces
the identical list; the model uses insertion sort, which places each
element before the earliest element of smaller or equal key. -/
def sortByLenDesc (ms : List (String × Nat)) : List (String × Nat) :=
  List.insertionSort (fun a b => b.2 ≤ a.2) ms

/-- CountryDatabase.find_country: collect all matching keywords, sort by
keyword length in decreasing order (stable), take the first, and look up
the owning country.  The word-boundary test is the abstract parameter. -/
def find_country (wb : String → String → Bool) (text : String) : Option Country :=
  let text_lower := lowerPy text
  let ms := keywordIndex.foldl (matchStep wb text_lower) []
  if ms.isEmpty then none
  else
    match sortByLenDesc ms with
    | [] => none
    | best :: _ => dictGet? best.1 countriesDict

/-- One step of the simplified match collection described by the spec:
plain substring containment, no word-boundary branch. -/
def matchStepSimple (tl : String)
    (ms : List (String × Nat)) (kc : String × String) : List (String × Nat) :=
  if containsSub kc.1 tl then ms ++ [(kc.2, kc.1.length)] else ms

/-- Modelled from the spec wording for the refinement claim: the simplified
variant of find_country that omits the word-boundary regex check entirely
and collects every keyword contained as a raw substring. -/
def find_country_spec (text : String) : Option Country :=
  let text_lower := lowerPy text
  let ms := keywordIndex.foldl (matchStepSimple text_lower) []
  if ms.isEmpty then none
  else
    match sortByLenDesc ms with
    | [] => none
    | best :: _ => dictGet? best.1 countriesDict


/-! Messages and the detector base. -/

/-- Message record (MS Graph message projection). -/
structure Message where
  from_address : String
  subject : String
  body : String
  received_at : Option String := none
  attachments : List String := []
  message_id : Option String := none
deriving DecidableEq

/-- Message.full_text: subject and body when nonempty, joined by a newline. -/
def Message.full_text (m : Message) : String :=
  String.intercalate "\n"
    ((if m.subject ≠ "" then [m.subject] else []) ++ (if m.body ≠ "" then [m.body] else []))

/-- The text corpus each detector works on: full texts joined by spaces. -/
def joinMessages (messages : List Message) : String :=
  String.intercalate " " (messages.map Message.full_text)

/-! LanguageDetector. -/

def markersEnglish : List (Rat × List String) := [
  (3, ["dear ",
    "hello",
    "good afternoon",
    "good morning",
    "good evening",
    "please",
    "thank you",
    "regards",
    "sincerely",
    "best wishes"]),
  (3/2, ["the ",
    "and ",
    "for ",
    "with",
    "from",
    "have",
    "will",
    "would",
    "could",
    "should",
    "about",
    "your",
    "our ",
    "this",
    "that"]),
  (1/2, ["is ",
    "are ",
    "was ",
    "were",
    "be ",
    "been"])
]

def markersRussian : List (Rat × List String) := [
  (3, ["уважаемый",
    "уважаемая",
    "здравствуйте",
    "добрый день",
    "добрый вечер",
    "с уважением",
    "пожалуйста",
    "спасибо",
    "благодарю"]),
  (3/2, ["прошу",
    "необходимо",
    "требуется",
    "хотел бы",
    "хотела бы",
    "подскажите",
    "сообщите",
    "направляю",
    "высылаю"]),
  (1/2, ["это",
    "что",
    "как",
    "для",
    "при",
    "или",
    "и ",
    "в ",
    "на "])
]

def markersKazakh : List (Rat × List String) := [
  (3, ["сәлем",
    "салем",
    "сәлеметсіз",
    "қайырлы",
    "рахмет"]),
  (3/2, ["керек",
    "болады",
    "мүмкін"]),
  (1/2, ["бұл",
    "мен",
    "сіз"])
]

def exactWantApply : List String := ["хочу подать на визу",
    "хочу оформить визу",
    "нужно оформить визу",
    "хочу получить визу",
    "планирую получить визу",
    "готов подать документы",
    "готов заполнить анкету",
    "заполню вашу форму",
    "оформление визы",
    "i want to apply",
    "i would like to apply",
    "need to apply",
    "apply for a visa",
    "visa application",
    "ready to apply"]

def combinedWantApply : List (List String × Rat) := [
  (["виз", "нужн"], 2),
  (["виз", "оформ"], 2),
  (["виз", "получ"], 2),
  (["виз", "подать"], 2),
  (["visa", "apply"], 2),
  (["visa", "need"], 2),
  (["visa", "get"], 3/2)]

def exactSendDocs : List String := ["направляю документы",
    "высылаю документы",
    "во вложении документы",
    "документы во вложении",
    "прилагаю документы",
    "attached documents",
    "please find attached",
    "documents attached",
    "sending documents"]

def combinedSendDocs : List (List String × Rat) := [
  (["документ", "вложен"], 2),
  (["документ", "прилаг"], 2),
  (["attach", "document"], 2)]

def exactInfoRequest : List String := ["прошу проинформировать",
    "расскажите подробнее",
    "информация по визе",
    "какие документы нужны",
    "что требуется для визы",
    "сколько стоит",
    "please advise",
    "could you provide information",
    "what documents",
    "what are the requirements",
    "how much does it cost"]

def combinedInfoRequest : List (List String × Rat) := [
  (["информаци", "виз"], 3/2),
  (["подскажите", "виз"], 3/2),
  (["information", "visa"], 3/2)]

def exactFollowup : List String := ["какой статус",
    "есть новости",
    "как продвигается",
    "когда будет готово",
    "есть ли обновления",
    "any update",
    "any news",
    "status of my",
    "what is the status",
    "could you please update"]

def combinedFollowup : List (List String × Rat) := [
  (["статус", "виз"], 2),
  (["статус", "заявк"], 2),
  (["status", "visa"], 2),
  (["update", "application"], 3/2)]

def exactComplaint : List String := ["недоволен",
    "жалоба",
    "претензия",
    "возмущён",
    "неприемлемо",
    "complaint",
    "dissatisfied",
    "unacceptable",
    "not happy with"]

def combinedComplaint : List (List String × Rat) := [
  (["недовол", "обслуживан"], 2),
  (["плох", "сервис"], 3/2)]

def exactGratitude : List String := ["спасибо большое",
    "благодарю вас",
    "очень благодарен",
    "огромное спасибо",
    "thank you so much",
    "many thanks",
    "greatly appreciate",
    "thanks a lot"]

def combinedGratitude : List (List String × Rat) := []

def exactCancellation : List String := ["отменить заявку",
    "отказываюсь",
    "не нужна виза",
    "отмена",
    "cancel application",
    "cancel my visa",
    "no longer need"]

def combinedCancellation : List (List String × Rat) := [
  (["отмен", "заявк"], 2),
  (["cancel", "visa"], 2)]

def exactReschedule : List String := ["перенести дату",
    "изменить дату",
    "перенос встречи",
    "reschedule",
    "change the date",
    "postpone"]

def combinedReschedule : List (List String × Rat) := [
  (["перенес", "дат"], 2),
  (["измен", "дат"], 3/2)]

def exactPayment : List String := ["оплата",
    "счёт",
    "инвойс",
    "квитанция",
    "реквизиты",
    "payment",
    "invoice",
    "receipt",
    "bank details"]

def combinedPayment : List (List String × Rat) := [
  (["оплат", "виз"], 3/2),
  (["payment", "visa"], 3/2)]

def urgencyMarkersCritical : List String := ["вылет сегодня",
    "вылет завтра",
    "сегодня вечером",
    "завтра утром",
    "через несколько часов",
    "flight today",
    "flight tomorrow",
    "departing today",
    "departing tomorrow",
    "leaving today"]

def urgencyMarkersHigh : List String := ["очень срочно",
    "крайне срочно",
    "максимально быстро",
    "asap",
    "as soon as possible",
    "urgent",
    "urgently",
    "immediately",
    "критически важно",
    "extremely urgent"]

def urgencyMarkersMedium : List String := ["срочно",
    "как можно скорее",
    "как можно быстрее",
    "горит",
    "на этой неделе",
    "в ближайшие дни",
    "promptly",
    "soon",
    "this week",
    "in the coming days"]

def POSITIVE_MARKERS : List String := ["спасибо",
    "благодарю",
    "отлично",
    "замечательно",
    "прекрасно",
    "thank you",
    "thanks",
    "great",
    "excellent",
    "wonderful",
    "appreciate",
    "доволен",
    "довольна",
    "рад",
    "рада",
    "satisfied",
    "happy"]

def NEGATIVE_MARKERS : List String := ["недоволен",
    "недовольна",
    "разочарован",
    "ужасно",
    "плохо",
    "unhappy",
    "disappointed",
    "terrible",
    "awful",
    "bad",
    "возмущён",
    "возмущена",
    "жалоба",
    "претензия",
    "complaint"]

/-- LanguageDetector.MARKERS for one language, as weighted tiers
(strong = 3.0, medium = 1.5, weak = 0.5). -/
def langMarkers : Language → List (Rat × List String)
  | .ENGLISH => markersEnglish
  | .RUSSIAN => markersRussian
  | .KAZAKH => markersKazakh

/-- Score of one language: over all tiers and marker words, the
occurrence count times the tier weight, summed. -/
def languageScore (text : String) (lang : Language) : Rat :=
  ((langMarkers lang).map
    (fun p => (p.2.map (fun w => (countOccs w.data text.data : Rat) * p.1)).sum)).sum

/-- Python max(xs, key=f) over a nonempty sequence: the first element of
maximal value, found by replacing the running best only on a strictly
greater value. -/
def argmaxQ {α : Type} (f : α → Rat) : α → List α → α
  | best, [] => best
  | best, x :: rest => argmaxQ f (if f x > f best then x else best) rest

/-- Winner of max(scores, key=scores.get), the scores dict being keyed in
Language declaration order. -/
def bestLanguage (text : String) : Language :=
  argmaxQ (languageScore text) Language.RUSSIAN [Language.ENGLISH, Language.KAZAKH]

/-- LanguageDetector.detect. -/
def languageDetect (messages : List Message) : Language :=
  let text := normalize_text (joinMessages messages)
  let best := bestLanguage text
  if best = Language.KAZAKH ∧
      languageScore text Language.RUSSIAN > languageScore text Language.KAZAKH * (1/2 : Rat) then
    Language.RUSSIAN
  else if languageScore text best < 1 then Language.RUSSIAN
  else best

/-! IntentDetector. -/

/-- Exact phrases of INTENT_PATTERNS; OTHER has no patterns. -/
def intentExact : Intent → List String
  | .WANT_APPLY => exactWantApply
  | .SEND_DOCS => exactSendDocs
  | .INFO_REQUEST => exactInfoRequest
  | .FOLLOWUP => exactFollowup
  | .COMPLAINT => exactComplaint
  | .GRATITUDE => exactGratitude
  | .CANCELLATION => exactCancellation
  | .RESCHEDULE => exactReschedule
  | .PAYMENT => exactPayment
  | .OTHER => []

/-- Combined keyword tuples of INTENT_PATTERNS; OTHER has no patterns. -/
def intentCombined : Intent → List (List String × Rat)
  | .WANT_APPLY => combinedWantApply
  | .SEND_DOCS => combinedSendDocs
  | .INFO_REQUEST => combinedInfoRequest
  | .FOLLOWUP => combinedFollowup
  | .COMPLAINT => combinedComplaint
  | .GRATITUDE => combinedGratitude
  | .CANCELLATION => combinedCancellation
  | .RESCHEDULE => combinedReschedule
  | .PAYMENT => combinedPayment
  | .OTHER => []

/-- Score of one intent: 3.0 for each exact phrase present, plus the
configured weight for each combined tuple all of whose keywords are present. -/
def intentScore (text : String) (i : Intent) : Rat :=
  ((intentExact i).map (fun p => if containsSub p text then (3 : Rat) else 0)).sum +
  ((intentCombined i).map
    (fun pc => if pc.1.all (fun kw => containsSub kw text) then pc.2 else 0)).sum

/-- Winner of max(scores, key=scores.get), the scores dict being keyed in
Intent declaration order. -/
def bestIntent (text : String) : Intent :=
  argmaxQ (intentScore text) Intent.WANT_APPLY
    [Intent.SEND_DOCS, Intent.INFO_REQUEST, Intent.FOLLOWUP, Intent.COMPLAINT,
     Intent.GRATITUDE, Intent.CANCELLATION, Intent.RESCHEDULE, Intent.PAYMENT, Intent.OTHER]

/-- IntentDetector.detect: confidence is min(best score / 6.0, 1.0), and a
confidence below 0.3 forces the result (OTHER, 0.0). -/
def intentDetect (messages : List Message) : Intent × Rat :=
  let text := normalize_text (joinMessages messages)
  let best := bestIntent text
  let confidence := min (intentScore text best / 6) 1
  if confidence < 3/10 then (Intent.OTHER, 0) else (best, confidence)

/-! UrgencyDetector and SentimentDetector. -/

/-- UrgencyDetector.detect: tiers checked from CRITICAL to MEDIUM, first
tier with any marker present wins; otherwise NORMAL. -/
def urgencyDetect (messages : List Message) : UrgencyLevel :=
  let text := normalize_text (joinMessages messages)
  if urgencyMarkersCritical.any (fun m => containsSub m text) then .CRITICAL
  else if urgencyMarkersHigh.any (fun m => containsSub m text) then .HIGH
  else if urgencyMarkersMedium.any (fun m => containsSub m text) then .MEDIUM
  else .NORMAL

/-- SentimentDetector.detect: counts of positive and negative marker phrases
present in the normalized text decide the label. -/
def sentimentDetect (messages : List Message) : String :=
  let text := normalize_text (joinMessages messages)
  let positive_count := (POSITIVE_MARKERS.filter (fun m => containsSub m text)).length
  let negative_count := (NEGATIVE_MARKERS.filter (fun m => containsSub m text)).length
  if negative_count > positive_count then "negative"
  else if positive_count > negative_count ∧ positive_count > 0 then "positive"
  else "neutral"

/-! StatusTransitionEngine. -/

/-- The transition matrix: current status to a mapping from intent to the
next status. -/
def TRANSITIONS : List (LeadStatus × List (Intent × LeadStatus)) := [
  (.NEW, [(.WANT_APPLY, .QUESTIONNAIRE_SENT), (.INFO_REQUEST, .INFO_PROVIDED),
          (.SEND_DOCS, .DOCS_IN_PROGRESS), (.CANCELLATION, .CANCELLED)]),
  (.INFO_PROVIDED, [(.WANT_APPLY, .QUESTIONNAIRE_SENT), (.SEND_DOCS, .DOCS_IN_PROGRESS),
          (.CANCELLATION, .CANCELLED)]),
  (.QUESTIONNAIRE_SENT, [(.SEND_DOCS, .QUESTIONNAIRE_FILLED), (.CANCELLATION, .CANCELLED)]),
  (.QUESTIONNAIRE_FILLED, [(.SEND_DOCS, .DOCS_IN_PROGRESS), (.CANCELLATION, .CANCELLED)]),
  (.DOCS_IN_PROGRESS, [(.SEND_DOCS, .DOCS_COLLECTED), (.CANCELLATION, .CANCELLED)]),
  (.DOCS_COLLECTED, [(.CANCELLATION, .CANCELLED)]),
  (.READY_FOR_SUBMISSION, [(.CANCELLATION, .CANCELLED)]),
  (.SUBMITTED, [(.CANCELLATION, .CANCELLED)]),
  (.INTERVIEW_SCHEDULED, [(.RESCHEDULE, .INTERVIEW_SCHEDULED), (.CANCELLATION, .CANCELLED)]),
  (.APPROVED, []),
  (.REJECTED, [(.WANT_APPLY, .QUESTIONNAIRE_SENT)]),
  (.COMPLETED, []),
  (.CANCELLED, [(.WANT_APPLY, .QUESTIONNAIRE_SENT)])]

/-- StatusTransitionEngine.get_new_status: TRANSITIONS.get(current, empty
dict).get(intent, current). -/
def get_new_status (current : LeadStatus) (intent : Intent) : LeadStatus :=
  (dictGet? intent ((dictGet? current TRANSITIONS).getD [])).getD current

/-! FormSelector. -/

/-- The initial all-false form-flag dict of should_offer_forms. -/
def formBase : List (String × Bool) :=
  [("poland", false), ("schengen", false), ("usa", false), ("generic", false)]

/-- FormSelector.should_offer_forms. -/
def should_offer_forms (country : Option Country) (intent : Intent)
    (existing_forms : List (String × Bool)) : List (String × Bool) :=
  let result := formBase
  if (match country with
      | some c => decide (c.category = VisaCategory.NON_STANDARD)
      | none => false) then result
  else if intent ≠ Intent.WANT_APPLY then result
  else
    match country with
    | some c =>
      match c.form_type with
      | some ft =>
        if ft ≠ "" ∧ (dictGet? ft existing_forms).getD false = false then
          dictSet ft true result
        else result
      | none => result
    | none =>
      if (dictGet? "generic" existing_forms).getD false = false then
        dictSet "generic" true result
      else result

/-! ThreadAnalyzer. -/

/-- Configuration record; string fields carry the documented defaults,
actual values come from the environment. -/
structure Config where
  mailbox_upn : String := "RobotVisa@itplus.kz"
  default_model : String := "gpt-4o"
  non_standard_forward_email : String := "azamat@example.com"
  max_thread_length : Nat := 8000
  max_tokens_reply : Nat := 800
  temperature : Rat := 1/5
  form_poland_url : Option String := none
  form_schengen_url : Option String := none
  form_usa_url : Option String := none
  form_generic_url : Option String := none
deriving DecidableEq

/-- ThreadAnalysis record, field defaults as in the dataclass. -/
structure ThreadAnalysis where
  language : Language
  detected_country : Option Country
  intent : Intent
  urgency : UrgencyLevel
  previous_status : LeadStatus
  new_status : LeadStatus
  offer_poland_form : Bool := false
  offer_schengen_form : Bool := false
  offer_usa_form : Bool := false
  offer_generic_form : Bool := false
  is_non_standard_destination : Bool := false
  has_attachments : Bool := false
  sentiment : String := "neutral"
  forward_to_email : Option String := none
  forward_reason : Option String := none
  confidence_score : Rat := 0
  analysis_notes : List String := []
deriving DecidableEq

/-- ThreadAnalyzer._empty_analysis. -/
def empty_analysis (previous_status : Option String) : ThreadAnalysis :=
  let prev := LeadStatus.from_string previous_status
  { language := Language.RUSSIAN, detected_country := none, intent := Intent.OTHER,
    urgency := UrgencyLevel.NORMAL, previous_status := prev, new_status := prev }

/-- ThreadAnalyzer.analyze.  The four detectors are constructor-injected in
the source; they are parameters here, as is the word-boundary predicate of
the country database and the configuration. -/
def analyze (language_detector : List Message → Language)
    (intent_detector : List Message → Intent × Rat)
    (urgency_detector : List Message → UrgencyLevel)
    (sentiment_detector : List Message → String)
    (wb : String → String → Bool) (cfg : Config)
    (messages : List Message) (our_address : String)
    (previous_status : Option String)
    (existing_forms : Option (List (String × Bool))) : ThreadAnalysis :=
  if messages.isEmpty then empty_analysis previous_status
  else
    let client_messages := messages.filter
      (fun m => lowerPy m.from_address ≠ lowerPy our_address)
    let chosen := if client_messages.isEmpty then messages else client_messages
    let language := language_detector chosen
    let country := find_country wb (String.intercalate " " (chosen.map Message.full_text))
    let ic := intent_detector chosen
    let urgency := urgency_detector chosen
    let sentiment := sentiment_detector chosen
    let prev_status := LeadStatus.from_string previous_status
    let new_status := get_new_status prev_status ic.1
    let existing := existing_forms.getD []
    let forms := should_offer_forms country ic.1 existing
    let has_attachments := messages.any (fun m => ¬ m.attachments.isEmpty)
    let is_non_standard :=
      match country with
      | some c => decide (c.category = VisaCategory.NON_STANDARD)
      | none => false
    let forward_to := if is_non_standard then some cfg.non_standard_forward_email else none
    let forward_reason := if is_non_standard then some "non_standard_country" else none
    { language := language,
      detected_country := country,
      intent := ic.1,
      urgency := urgency,
      previous_status := prev_status,
      new_status := new_status,
      offer_poland_form := (dictGet? "poland" forms).getD false,
      offer_schengen_form := (dictGet? "schengen" forms).getD false,
      offer_usa_form := (dictGet? "usa" forms).getD false,
      offer_generic_form := (dictGet? "generic" forms).getD false,
      is_non_standard_destination := is_non_standard,
      has_attachments := has_attachments,
      sentiment := sentiment,
      forward_to_email := forward_to,
      forward_reason := forward_reason,
      confidence_score := ic.2 }


/-- The positive marker count of SentimentDetector.detect. -/
def posCount (messages : List Message) : Nat :=
  (POSITIVE_MARKERS.filter
    (fun m => containsSub m (normalize_text (joinMessages messages)))).length

/-- The negative marker count of SentimentDetector.detect. -/
def negCount (messages : List Message) : Nat :=
  (NEGATIVE_MARKERS.filter
    (fun m => containsSub m (normalize_text (joinMessages messages)))).length

/-- The normalized corpus each detector computes from a message list. -/
def detectorText (messages : List Message) : String :=
  normalize_text (joinMessages messages)

/-- A thread whose highest-scoring language is Kazakh while the second-place
language is English: scores are Kazakh 9.5, English 6, Russian 0. -/
def cexMsg : Message :=
  { from_address := "client@example.com", subject := "",
    body := "dear hello сәлеметсіз қайырлы" }

/-- A thread whose highest-scoring language is Kazakh (3.0) with Russian in
second place (2.0), above half of the Kazakh score. -/
def ruMsg : Message :=
  { from_address := "client@example.com", subject := "",
    body := "сәлем что что что что" }

/-- A country value outside the database whose form type is none of the four
known form keys. -/
def vipCountry : Country :=
  { code := "XX", names := [], category := VisaCategory.STANDARD, form_type := some "vip" }

/-- The United Kingdom entry of the country database. -/
def countryGB : Country :=
  { code := "GB",
    names := ["uk", "united kingdom", "great britain", "england", "британия",
      "великобритания", "англия", "london", "лондон", "manchester", "манчестер",
      "liverpool", "ливерпуль", "scotland", "шотландия"],
    category := VisaCategory.NON_STANDARD, form_type := none,
    processing_notes := some "Требуется отдельная британская виза" }

/-- A client thread mentioning London, a non-standard destination. -/
def londonMsg : Message :=
  { from_address := "client@example.com", subject := "", body := "london" }

/-- A country has a known form type when it is absent, empty, or one of the
four form keys; every database country satisfies this. -/
def formTypeKnown : Option Country → Bool
  | none => true
  | some c =>
    match c.form_type with
    | none => true
    | some ft => ft = "" || ft = "poland" || ft = "schengen" || ft = "usa" || ft = "generic"

/-- Number of offer flags set in an analysis. -/
def offerFlagCount (a : ThreadAnalysis) : Nat :=
  (if a.offer_poland_form then 1 else 0) +
  (if a.offer_schengen_form then 1 else 0) +
  (if a.offer_usa_form then 1 else 0) +
  (if a.offer_generic_form then 1 else 0)

/-- Number of true values in a form-flag dict. -/
def trueFlags (l : List (String × Bool)) : Nat :=
  (l.filter (fun p => p.2)).length

/-- Number of true values among the four known form keys of a dict. -/
def flagCount (l : List (String × Bool)) : Nat :=
  (if (dictGet? "poland" l).getD false then 1 else 0) +
  (if (dictGet? "schengen" l).getD false then 1 else 0) +
  (if (dictGet? "usa" l).getD false then 1 else 0) +
  (if (dictGet? "generic" l).getD false then 1 else 0)

/-- The match list find_country accumulates: every keyword of the index
contained in the lowercased text, paired as (country code, keyword length). -/
def matchedPairs (tl : String) : List (String × Nat) :=
  (keywordIndex.filter (fun kc => containsSub kc.1 tl)).map
    (fun kc => (kc.2, kc.1.length))

/-- A simple polynomial code of a string, used to certify that index
keywords are pairwise distinct with cheap numeric comparisons.  The modulus
8191 happens to make all index keyword codes distinct. -/
def strHash (s : String) : Nat :=
  s.data.foldl (fun acc c => (acc * 265 + c.toNat) % 8191) 0

/-- Linear distinctness check for a list of small numbers: fold a bitmask,
failing on any bit already seen (bit i of acc is acc / 2 ^ i % 2; with that
bit clear, setting it is adding 2 ^ i).  Success certifies Nodup in one
pass. -/
def distinctMask : List Nat → Nat → Option Nat
  | [], acc => some acc
  | i :: rest, acc =>
    if acc / 2 ^ i % 2 = 1 then none else distinctMask rest (acc + 2 ^ i)

/-- The codes of the index keywords in index order; all 356 are distinct. -/
def kwHashes : List Nat := [
  1021, 3151, 3170, 3159, 2521, 930, 949, 1310, 4793, 1395, 3002, 6774, 3172, 6751, 3549, 2146, 8173, 5979, 3166, 485, 5722, 5198, 5360, 1329, 5911, 7062, 4504, 7830, 4807, 6678,
  6181, 4757, 6013, 1244, 449, 3333, 3332, 3310, 239, 3929, 282, 1734, 5558, 2793, 4253, 813, 4921, 3622, 3621, 3599, 60, 2591, 2786, 7765, 1597, 1477, 5232, 6159, 5530, 6843,
  6842, 6820, 5233, 7942, 5229, 6124, 6332, 8121, 7031, 7719, 7342, 7728, 7447, 7446, 7424, 1012, 1138, 5568, 7494, 6617, 1110, 2763, 2186, 1998, 4455, 3128, 314, 7289, 5952, 4762,
  5459, 6080, 768, 6479, 96, 95, 7749, 2098, 6069, 3667, 2044, 1016, 6850, 7014, 1221, 1220, 3832, 7656, 2955, 5201, 4270, 7274, 7469, 4226, 4225, 4039, 4124, 258, 2420, 8060,
  3120, 3119, 8027, 7706, 6763, 2014, 1812, 5465, 5464, 3100, 7761, 4023, 5214, 6396, 6347, 3808, 5371, 1092, 4076, 4075, 1031, 6416, 4685, 3040, 3039, 4189, 1874, 57, 1923, 5784,
  693, 5415, 35, 34, 4220, 1472, 890, 686, 685, 174, 2336, 6953, 6026, 6025, 3924, 7390, 7227, 1103, 1102, 798, 5413, 6539, 7566, 5040, 2330, 6642, 724, 5866, 6968, 2232,
  880, 7891, 4991, 6204, 4060, 4491, 4096, 2267, 2286, 6113, 1441, 4194, 2237, 5907, 3766, 5837, 4367, 2593, 7993, 7992, 2278, 7362, 7076, 2122, 588, 3579, 1683, 5563, 6304, 4027,
  974, 5492, 808, 2967, 2966, 5375, 6088, 1671, 2206, 4936, 1920, 2287, 7742, 2025, 6883, 1797, 70, 1651, 767, 4414, 3659, 6901, 1926, 5924, 4942, 6542, 4445, 5364, 300, 4382,
  1127, 1126, 2841, 6573, 2469, 5972, 2464, 897, 1499, 6724, 6723, 6406, 7944, 4541, 226, 578, 2859, 2878, 773, 3479, 1724, 5689, 5708, 1626, 4079, 598, 6702, 6578, 6513, 6512,
  1941, 4659, 988, 5228, 5249, 4652, 3145, 1985, 2558, 7391, 4636, 6121, 1912, 5400, 3611, 3298, 7709, 5999, 3483, 5039, 3050, 6631, 5253, 8020, 6056, 5836, 4917, 80, 5611, 3936,
  3297, 7696, 4537, 2450, 4764, 2491, 5650, 4912, 6155, 5010, 4050, 7496, 2175, 622, 5752, 6218, 473, 1086, 5320, 6165, 4609, 3916, 7204, 388, 2373, 7297, 2897, 7115, 8171, 6142,
  5974, 3948, 2007, 2455, 1783, 451, 2374, 2724, 7116, 5647, 4548, 3085, 7691, 1048, 6937, 7802, 6206, 1172, 4860, 2017, 8186, 1190, 7760, 7779, 4770, 2309]

/-! Theorems.  Shared helper lemmas first, then one theorem per claim. -/

set_option maxRecDepth 100000
set_option maxHeartbeats 4000000
set_option exponentiation.threshold 10000

/-- Dict assignment with a key absent from the dict appends the binding. -/
theorem dictSet_fresh {κ β : Type} [DecidableEq κ] (k : κ) (v : β) :
    ∀ l : List (κ × β), k ∉ l.map Prod.fst → dictSet k v l = l ++ [(k, v)] := by
  intro l
  induction l with
  | nil => intro _; rfl
  | cons x rest ih =>
    intro h
    obtain ⟨k', v'⟩ := x
    simp only [List.map_cons, List.mem_cons] at h
    push_neg at h
    simp only [dictSet, if_neg (Ne.symm h.1)]
    rw [ih h.2]
    simp

/-- Folding dict assignments over bindings whose keys are jointly free of
duplicates is plain accumulation. -/
theorem foldl_dictSet_fresh {κ β : Type} [DecidableEq κ] :
    ∀ (entries : List (κ × β)) (acc : List (κ × β)),
      ((acc ++ entries).map Prod.fst).Nodup →
      entries.foldl (fun d e => dictSet e.1 e.2 d) acc = acc ++ entries := by
  intro entries
  induction entries with
  | nil => intro acc _; simp
  | cons e es ih =>
    intro acc h
    have hk : e.1 ∉ acc.map Prod.fst := by
      intro hmem
      rw [List.map_append] at h
      rcases (List.nodup_append.mp h) with ⟨_, _, hdisj⟩
      exact hdisj hmem (by simp)
    simp only [List.foldl_cons]
    rw [dictSet_fresh e.1 e.2 acc hk]
    rw [ih (acc ++ [(e.1, e.2)]) (by simpa [List.append_assoc] using h)]
    simp

/-- The nested startup fold over countries and names is the flat fold over
all (lowercased name, code) bindings. -/
theorem build_flat :
    ∀ (cs : List Country) (acc : List (String × String)),
      cs.foldl (fun idx c => c.names.foldl
        (fun idx2 n => dictSet (lowerPy n) c.code idx2) idx) acc =
      (cs.flatMap (fun c => c.names.map (fun n => (lowerPy n, c.code)))).foldl
        (fun d e => dictSet e.1 e.2 d) acc := by
  intro cs
  induction cs with
  | nil => intro acc; rfl
  | cons c cs ih =>
    intro acc
    simp only [List.foldl_cons, List.flatMap_cons, List.foldl_append]
    rw [← ih]
    congr 1
    rw [List.foldl_map]

/-- With bit i of acc clear, the part of acc below 2 ^ (i + 1) stays below
2 ^ i. -/
theorem bitClear_mod (acc i : Nat) (h : acc / 2 ^ i % 2 = 0) :
    acc % 2 ^ (i + 1) < 2 ^ i := by
  have hm : acc % (2 ^ i * 2) = acc % 2 ^ i + 2 ^ i * (acc / 2 ^ i % 2) := Nat.mod_mul
  rw [h, Nat.mul_zero, Nat.add_zero] at hm
  have hlt : acc % 2 ^ i < 2 ^ i := Nat.mod_lt _ (Nat.two_pow_pos i)
  rw [pow_succ]
  omega

/-- Adding 2 ^ i to a number whose bit i is clear sets that bit. -/
theorem addBit_self (acc i : Nat) (h : acc / 2 ^ i % 2 = 0) :
    (acc + 2 ^ i) / 2 ^ i % 2 = 1 := by
  rw [Nat.add_div_right _ (Nat.two_pow_pos i)]
  omega

/-- Adding 2 ^ i to a number whose bit i is clear leaves every other bit
unchanged: below i the addend is an even multiple of the divisor, above i
no carry reaches, since the low part stays below 2 ^ (i + 1). -/
theorem addBit_other (acc i j : Nat) (h : acc / 2 ^ i % 2 = 0) (hne : j ≠ i) :
    (acc + 2 ^ i) / 2 ^ j % 2 = acc / 2 ^ j % 2 := by
  rcases Nat.lt_or_ge j i with hji | hji
  · have hsplit : (2 : Nat) ^ i = 2 ^ j * 2 ^ (i - j) := by
      rw [← pow_add]
      congr 1
      omega
    rw [hsplit, Nat.add_mul_div_left _ _ (Nat.two_pow_pos j)]
    have heven : (2 : Nat) ^ (i - j) = 2 ^ (i - j - 1) * 2 := by
      rw [← pow_succ]
      congr 1
      omega
    omega
  · have hji2 : i + 1 ≤ j := by omega
    have hr : acc % 2 ^ (i + 1) < 2 ^ i := bitClear_mod acc i h
    have hdm := Nat.div_add_mod acc (2 ^ (i + 1))
    have hq1 : (acc + 2 ^ i) / 2 ^ (i + 1) = acc / 2 ^ (i + 1) := by
      have hsum : acc + 2 ^ i =
          2 ^ (i + 1) * (acc / 2 ^ (i + 1)) + (acc % 2 ^ (i + 1) + 2 ^ i) := by
        omega
      have hlt2 : acc % 2 ^ (i + 1) + 2 ^ i < 2 ^ (i + 1) := by
        rw [pow_succ] at hr ⊢
        omega
      rw [hsum, Nat.mul_add_div (Nat.two_pow_pos _), Nat.div_eq_of_lt hlt2,
        Nat.add_zero]
    have hsplit : (2 : Nat) ^ j = 2 ^ (i + 1) * 2 ^ (j - (i + 1)) := by
      rw [← pow_add]
      congr 1
      omega
    rw [hsplit, ← Nat.div_div_eq_div_mul, ← Nat.div_div_eq_div_mul, hq1]

/-- A successful distinctMask run certifies that no listed number repeats
and that none of them was already in the mask. -/
theorem distinctMask_nodup :
    ∀ (l : List Nat) (acc : Nat), (distinctMask l acc).isSome = true →
      (∀ x ∈ l, acc / 2 ^ x % 2 = 0) ∧ l.Nodup := by
  intro l
  induction l with
  | nil => intro acc _; exact ⟨(fun x hx => by cases hx), List.nodup_nil⟩
  | cons i rest ih =>
    intro acc h
    by_cases hb : acc / 2 ^ i % 2 = 1
    · rw [distinctMask, if_pos hb] at h
      cases h
    · rw [distinctMask, if_neg hb] at h
      have hb0 : acc / 2 ^ i % 2 = 0 := by omega
      obtain ⟨hfree, hnd⟩ := ih (acc + 2 ^ i) h
      refine ⟨?_, ?_⟩
      · intro x hx
        rcases List.mem_cons.mp hx with hx | hx
        · subst hx; exact hb0
        · have hx0 := hfree x hx
          by_cases hxi : x = i
          · subst hxi
            rw [addBit_self acc x hb0] at hx0
            omega
          · rw [addBit_other acc i x hb0 hxi] at hx0
            exact hx0
      · refine List.nodup_cons.mpr ⟨?_, hnd⟩
        intro hmem
        have h1 := hfree i hmem
        rw [addBit_self acc i hb0] at h1
        omega

/-- The written-out keyword index coincides with the index the startup fold
builds: no two countries share a keyword, so assignment only appends.
Keyword distinctness is certified through the numeric codes kwHashes. -/
theorem keywordIndex_eq_build : keywordIndex = buildKeywordIndex := by
  have hflat : countriesData.flatMap
      (fun c => c.names.map (fun n => (lowerPy n, c.code))) = keywordIndex := by
    with_unfolding_all decide
  have hhash : keywordIndex.map (fun kc => strHash kc.1) = kwHashes := by
    with_unfolding_all decide
  have hhn : kwHashes.Nodup :=
    (distinctMask_nodup kwHashes 0 (by decide)).2
  have hnodup : (keywordIndex.map Prod.fst).Nodup := by
    refine List.Nodup.of_map strHash ?_
    rw [List.map_map]
    exact (show List.map (strHash ∘ Prod.fst) keywordIndex = kwHashes from hhash) ▸ hhn
  rw [buildKeywordIndex, build_flat, hflat,
    foldl_dictSet_fresh keywordIndex [] (by simpa using hnodup)]
  simp

/-- The written-out code dictionary coincides with the dictionary the
startup fold builds: codes are unique, so assignment only appends. -/
theorem countriesDict_eq_build : countriesDict = buildCountriesDict := by
  have hmap : buildCountriesDict =
      (countriesData.map (fun c => (c.code, c))).foldl
        (fun d e => dictSet e.1 e.2 d) [] := by
    rw [buildCountriesDict, List.foldl_map]
  have hlit : countriesData.map (fun c => (c.code, c)) = countriesDict := by
    with_unfolding_all decide
  have hnodup : (countriesDict.map Prod.fst).Nodup := by decide
  rw [hmap, hlit, foldl_dictSet_fresh countriesDict [] (by simpa using hnodup)]
  simp

/-- Python max with a key function returns an element whose value bounds the
value of the start element and of every listed element. -/
theorem argmaxQ_le {α : Type} (f : α → Rat) :
    ∀ (l : List α) (b x : α), x = b ∨ x ∈ l → f x ≤ f (argmaxQ f b l) := by
  intro l
  induction l with
  | nil =>
    intro b x hx
    rcases hx with h | h
    · subst h; exact le_refl _
    · cases h
  | cons y rest ih =>
    intro b x hx
    have hstep : f b ≤ f (if f y > f b then y else b) ∧ f y ≤ f (if f y > f b then y else b) := by
      by_cases hyb : f y > f b
      · simp [hyb]; exact le_of_lt hyb
      · simp [hyb]; exact le_of_not_lt hyb
    have hbase : f (if f y > f b then y else b)
        ≤ f (argmaxQ f (if f y > f b then y else b) rest) :=
      ih (if f y > f b then y else b) _ (Or.inl rfl)
    rcases hx with h | h
    · subst h
      exact le_trans hstep.1 (by simpa [argmaxQ] using hbase)
    · rcases List.mem_cons.mp h with h | h
      · subst h
        exact le_trans hstep.2 (by simpa [argmaxQ] using hbase)
      · simpa [argmaxQ] using ih (if f y > f b then y else b) x (Or.inr h)

/-- A string whose lowercasing is the value of a status is parsed back to
that status by from_string. -/
theorem from_string_value (s : String) (st : LeadStatus) (h : lowerPy s = st.value) :
    LeadStatus.from_string (some s) = st := by
  have hs : ¬ s = "" := by
    intro he
    subst he
    cases st <;> simp [lowerPy, LeadStatus.value] at h
  simp only [LeadStatus.from_string, if_neg hs, h]
  cases st <;> rfl

/-- Claim C1: get_new_status always lands in the closed LeadStatus
enumeration, and every (status, intent) pair that the transition table does
not cover is mapped to the current status unchanged. -/
theorem claim1 (current : LeadStatus) (intent : Intent) :
    get_new_status current intent ∈ LeadStatus.all ∧
    ((dictGet? current TRANSITIONS = none ∨
      dictGet? intent ((dictGet? current TRANSITIONS).getD []) = none) →
      get_new_status current intent = current) := by
  cases current <;> cases intent <;> decide

/-- Witness for C1 at a concrete uncovered pair: APPROVED has an empty inner
mapping, so a payment intent leaves the status unchanged. -/
theorem claim1_witness : get_new_status LeadStatus.APPROVED Intent.PAYMENT = LeadStatus.APPROVED :=
  (claim1 LeadStatus.APPROVED Intent.PAYMENT).2 (Or.inr (by decide))

/-- Claim C5: analysing an empty message list with a valid status string
returns the trivial analysis: both statuses equal the named status, intent
OTHER, urgency NORMAL, no country, default language — independently of the
injected detectors, the word-boundary test and the configuration. -/
theorem claim5 (ld : List Message → Language) (idet : List Message → Intent × Rat)
    (ud : List Message → UrgencyLevel) (sd : List Message → String)
    (wb : String → String → Bool) (cfg : Config) (our : String)
    (ef : Option (List (String × Bool))) (s : String) (st : LeadStatus)
    (h : lowerPy s = st.value) :
    analyze ld idet ud sd wb cfg [] our (some s) ef =
      { language := Language.RUSSIAN, detected_country := none, intent := Intent.OTHER,
        urgency := UrgencyLevel.NORMAL, previous_status := st, new_status := st } := by
  simp [analyze, empty_analysis, from_string_value s st h]

/-- Witness for C5: the uppercase spelling of SUBMITTED round-trips. -/
theorem claim5_witness :
    analyze languageDetect intentDetect urgencyDetect sentimentDetect
      (fun _ _ => false) {} [] "robot@example.com" (some "SUBMITTED") none =
      { language := Language.RUSSIAN, detected_country := none, intent := Intent.OTHER,
        urgency := UrgencyLevel.NORMAL, previous_status := LeadStatus.SUBMITTED,
        new_status := LeadStatus.SUBMITTED } :=
  claim5 languageDetect intentDetect urgencyDetect sentimentDetect
    (fun _ _ => false) {} "robot@example.com" none "SUBMITTED" LeadStatus.SUBMITTED (by decide)

/-- Claim C7: the sentiment label is negative exactly when the negative
marker count exceeds the positive one, positive exactly when the positive
count strictly exceeds the negative one and is nonzero, and neutral
otherwise. -/
theorem claim7 (messages : List Message) :
    (sentimentDetect messages = "negative" ↔ posCount messages < negCount messages) ∧
    (sentimentDetect messages = "positive" ↔
      negCount messages < posCount messages ∧ 0 < posCount messages) ∧
    (sentimentDetect messages = "neutral" ↔
      ¬ (posCount messages < negCount messages) ∧
      ¬ (negCount messages < posCount messages ∧ 0 < posCount messages)) := by
  have hdet : sentimentDetect messages =
      (if negCount messages > posCount messages then "negative"
       else if posCount messages > negCount messages ∧ posCount messages > 0 then "positive"
       else "neutral") := by
    simp [sentimentDetect, posCount, negCount]
  rw [hdet]
  by_cases h1 : posCount messages < negCount messages
  · simp [h1, show negCount messages > posCount messages from h1]
    omega
  · by_cases h2 : negCount messages < posCount messages ∧ 0 < posCount messages
    · simp [show ¬ negCount messages > posCount messages from h1, h2]
    · simp [show ¬ negCount messages > posCount messages from h1, h2]

/-- Claim C9: urgency is decided by strict tier priority — CRITICAL when any
critical marker occurs, else HIGH when any high marker occurs, else MEDIUM
when any medium marker occurs, else NORMAL — and LOW is never returned. -/
theorem claim9 (messages : List Message) :
    (urgencyDetect messages = UrgencyLevel.CRITICAL ↔
      urgencyMarkersCritical.any
        (fun m => containsSub m (normalize_text (joinMessages messages))) = true) ∧
    (urgencyDetect messages = UrgencyLevel.HIGH ↔
      urgencyMarkersCritical.any
        (fun m => containsSub m (normalize_text (joinMessages messages))) = false ∧
      urgencyMarkersHigh.any
        (fun m => containsSub m (normalize_text (joinMessages messages))) = true) ∧
    (urgencyDetect messages = UrgencyLevel.MEDIUM ↔
      urgencyMarkersCritical.any
        (fun m => containsSub m (normalize_text (joinMessages messages))) = false ∧
      urgencyMarkersHigh.any
        (fun m => containsSub m (normalize_text (joinMessages messages))) = false ∧
      urgencyMarkersMedium.any
        (fun m => containsSub m (normalize_text (joinMessages messages))) = true) ∧
    (urgencyDetect messages = UrgencyLevel.NORMAL ↔
      urgencyMarkersCritical.any
        (fun m => containsSub m (normalize_text (joinMessages messages))) = false ∧
      urgencyMarkersHigh.any
        (fun m => containsSub m (normalize_text (joinMessages messages))) = false ∧
      urgencyMarkersMedium.any
        (fun m => containsSub m (normalize_text (joinMessages messages))) = false) ∧
    urgencyDetect messages ≠ UrgencyLevel.LOW := by
  by_cases hc : urgencyMarkersCritical.any
      (fun m => containsSub m (normalize_text (joinMessages messages))) = true
  · simp [urgencyDetect, hc]
  · by_cases hh : urgencyMarkersHigh.any
        (fun m => containsSub m (normalize_text (joinMessages messages))) = true
    · simp [urgencyDetect, hc, hh]
    · by_cases hm : urgencyMarkersMedium.any
          (fun m => containsSub m (normalize_text (joinMessages messages))) = true
      · simp [urgencyDetect, hc, hh, hm]
      · simp [urgencyDetect, hc, hh, hm]


/-- Claim C4: intent detection returns a confidence in [0, 1]; whenever the
normalized best score min(s / 6, 1) is below 0.3 the result is exactly
(OTHER, 0.0), and otherwise the confidence equals min(s / 6, 1), where s is
the score of the winning intent, which bounds every per-intent score. -/
theorem claim4 (messages : List Message) :
    (∀ i : Intent, intentScore (detectorText messages) i ≤
        intentScore (detectorText messages) (bestIntent (detectorText messages))) ∧
    0 ≤ (intentDetect messages).2 ∧ (intentDetect messages).2 ≤ 1 ∧
    (min (intentScore (detectorText messages)
        (bestIntent (detectorText messages)) / 6) 1 < 3/10 →
      intentDetect messages = (Intent.OTHER, 0)) ∧
    (¬ min (intentScore (detectorText messages)
        (bestIntent (detectorText messages)) / 6) 1 < 3/10 →
      (intentDetect messages).2 =
        min (intentScore (detectorText messages)
          (bestIntent (detectorText messages)) / 6) 1) := by
  have hunfold : intentDetect messages =
      if min (intentScore (detectorText messages)
          (bestIntent (detectorText messages)) / 6) 1 < 3/10
      then (Intent.OTHER, 0)
      else (bestIntent (detectorText messages),
        min (intentScore (detectorText messages)
          (bestIntent (detectorText messages)) / 6) 1) := rfl
  refine ⟨?_, ?_, ?_, ?_, ?_⟩
  · intro i
    have hmem : i = Intent.WANT_APPLY ∨
        i ∈ [Intent.SEND_DOCS, Intent.INFO_REQUEST, Intent.FOLLOWUP, Intent.COMPLAINT,
             Intent.GRATITUDE, Intent.CANCELLATION, Intent.RESCHEDULE, Intent.PAYMENT,
             Intent.OTHER] := by
      cases i <;> simp
    simpa [bestIntent] using
      argmaxQ_le (intentScore (detectorText messages))
        [Intent.SEND_DOCS, Intent.INFO_REQUEST, Intent.FOLLOWUP, Intent.COMPLAINT,
         Intent.GRATITUDE, Intent.CANCELLATION, Intent.RESCHEDULE, Intent.PAYMENT,
         Intent.OTHER] Intent.WANT_APPLY i hmem
  · rw [hunfold]
    by_cases h : min (intentScore (detectorText messages)
        (bestIntent (detectorText messages)) / 6) 1 < 3/10
    · simp [h]
    · have h3 : (3/10 : Rat) ≤ min (intentScore (detectorText messages)
          (bestIntent (detectorText messages)) / 6) 1 := le_of_not_lt h
      simp only [if_neg h]
      linarith
  · rw [hunfold]
    by_cases h : min (intentScore (detectorText messages)
        (bestIntent (detectorText messages)) / 6) 1 < 3/10
    · simp [h]
    · simp only [if_neg h]
      exact min_le_right _ _
  · intro h
    rw [hunfold, if_pos h]
  · intro h
    rw [hunfold, if_neg h]

/-- Witness for C4: the empty thread scores zero, so the below-threshold
branch fires and the result is exactly (OTHER, 0.0). -/
theorem claim4_witness :
    intentDetect [] = (Intent.OTHER, 0) ∧
    min (intentScore (detectorText []) (bestIntent (detectorText [])) / 6) 1 < 3/10 :=
  ⟨(claim4 []).2.2.2.1 (by with_unfolding_all decide), by with_unfolding_all decide⟩

/-- Counterexample to C6 as stated: on this thread Kazakh scores highest
(9.5), English is the second-place language (6 > 0) and exceeds half of the
Kazakh score (6 > 4.75), yet detect returns Kazakh, not the second-place
language English — the source compares the Russian score only. -/
theorem claim6_counterexample :
    (languageScore (detectorText [cexMsg]) Language.KAZAKH >
       languageScore (detectorText [cexMsg]) Language.RUSSIAN ∧
     languageScore (detectorText [cexMsg]) Language.KAZAKH >
       languageScore (detectorText [cexMsg]) Language.ENGLISH) ∧
    (languageScore (detectorText [cexMsg]) Language.ENGLISH >
       languageScore (detectorText [cexMsg]) Language.RUSSIAN ∧
     languageScore (detectorText [cexMsg]) Language.ENGLISH >
       languageScore (detectorText [cexMsg]) Language.KAZAKH * (1/2)) ∧
    languageDetect [cexMsg] = Language.KAZAKH ∧
    ¬ languageDetect [cexMsg] = Language.ENGLISH := by
  with_unfolding_all decide

/-- Claim C6 as amended: when the winner is Kazakh and specifically the
Russian score exceeds half of the Kazakh score, detect returns Russian. -/
theorem claim6 (messages : List Message)
    (h1 : bestLanguage (detectorText messages) = Language.KAZAKH)
    (h2 : languageScore (detectorText messages) Language.RUSSIAN >
          languageScore (detectorText messages) Language.KAZAKH * (1/2)) :
    languageDetect messages = Language.RUSSIAN := by
  have hunfold : languageDetect messages =
      if bestLanguage (detectorText messages) = Language.KAZAKH ∧
         languageScore (detectorText messages) Language.RUSSIAN >
           languageScore (detectorText messages) Language.KAZAKH * (1/2 : Rat)
      then Language.RUSSIAN
      else if languageScore (detectorText messages)
          (bestLanguage (detectorText messages)) < 1
        then Language.RUSSIAN
        else bestLanguage (detectorText messages) := rfl
  rw [hunfold, if_pos ⟨h1, h2⟩]

/-- Witness for C6 as amended: Kazakh wins with 3.0, Russian scores 2.0,
above half of 3.0, and detect returns Russian. -/
theorem claim6_witness :
    languageDetect [ruMsg] = Language.RUSSIAN ∧
    bestLanguage (detectorText [ruMsg]) = Language.KAZAKH ∧
    languageScore (detectorText [ruMsg]) Language.RUSSIAN >
      languageScore (detectorText [ruMsg]) Language.KAZAKH * (1/2) :=
  ⟨claim6 [ruMsg] (by with_unfolding_all decide) (by with_unfolding_all decide),
   by with_unfolding_all decide, by with_unfolding_all decide⟩


/-- Setting any key to true in the all-false base dict leaves exactly one
true value. -/
theorem trueFlags_dictSet_formBase (ft : String) :
    trueFlags (dictSet ft true formBase) = 1 := by
  by_cases h1 : "poland" = ft
  · subst h1; decide
  by_cases h2 : "schengen" = ft
  · subst h2; decide
  by_cases h3 : "usa" = ft
  · subst h3; decide
  by_cases h4 : "generic" = ft
  · subst h4; decide
  simp [dictSet, formBase, trueFlags, h1, h2, h3, h4]

/-- Setting any key to true in the all-false base dict leaves at most one of
the four known keys true. -/
theorem flagCount_dictSet_formBase (ft : String) :
    flagCount (dictSet ft true formBase) ≤ 1 := by
  by_cases h1 : "poland" = ft
  · subst h1; decide
  by_cases h2 : "schengen" = ft
  · subst h2; decide
  by_cases h3 : "usa" = ft
  · subst h3; decide
  by_cases h4 : "generic" = ft
  · subst h4; decide
  simp [dictSet, formBase, flagCount, dictGet?, h1, h2, h3, h4]

/-- Setting one of the four known keys to true keeps exactly the four keys. -/
theorem keys_dictSet_formBase (ft : String)
    (h : ft = "poland" ∨ ft = "schengen" ∨ ft = "usa" ∨ ft = "generic") :
    (dictSet ft true formBase).map Prod.fst = ["poland", "schengen", "usa", "generic"] := by
  rcases h with h | h | h | h
  · subst h; decide
  · subst h; decide
  · subst h; decide
  · subst h; decide

/-- A non-standard country suppresses every form flag. -/
theorem sof_nonstandard (c : Country) (intent : Intent) (existing : List (String × Bool))
    (h : c.category = VisaCategory.NON_STANDARD) :
    should_offer_forms (some c) intent existing = formBase := by
  simp [should_offer_forms, h]

/-- The three dict-level facts of the form selector: at most one true value
in the whole dict, at most one of the four known keys true, and, for a
country whose form type is known, exactly the four keys. -/
theorem sof_props (country : Option Country) (intent : Intent)
    (existing : List (String × Bool)) :
    trueFlags (should_offer_forms country intent existing) ≤ 1 ∧
    flagCount (should_offer_forms country intent existing) ≤ 1 ∧
    (formTypeKnown country = true →
      (should_offer_forms country intent existing).map Prod.fst =
        ["poland", "schengen", "usa", "generic"]) := by
  cases country with
  | none =>
    by_cases hi : intent = Intent.WANT_APPLY
    · by_cases hg : (dictGet? "generic" existing).getD false = false
      · have he : should_offer_forms none intent existing = dictSet "generic" true formBase := by
          simp [should_offer_forms, hi, hg]
        rw [he]
        exact ⟨le_of_eq (trueFlags_dictSet_formBase _), flagCount_dictSet_formBase _,
          fun _ => keys_dictSet_formBase _ (Or.inr (Or.inr (Or.inr rfl)))⟩
      · have he : should_offer_forms none intent existing = formBase := by
          simp [should_offer_forms, hi, hg]
        rw [he]
        exact ⟨by decide, by decide, fun _ => by decide⟩
    · have he : should_offer_forms none intent existing = formBase := by
        simp [should_offer_forms, hi]
      rw [he]
      exact ⟨by decide, by decide, fun _ => by decide⟩
  | some c =>
    by_cases hcat : c.category = VisaCategory.NON_STANDARD
    · rw [sof_nonstandard c intent existing hcat]
      exact ⟨by decide, by decide, fun _ => by decide⟩
    · by_cases hi : intent = Intent.WANT_APPLY
      · cases hft : c.form_type with
        | none =>
          have he : should_offer_forms (some c) intent existing = formBase := by
            simp [should_offer_forms, hcat, hi, hft]
          rw [he]
          exact ⟨by decide, by decide, fun _ => by decide⟩
        | some ft =>
          by_cases hcond : ¬ ft = "" ∧ (dictGet? ft existing).getD false = false
          · have he : should_offer_forms (some c) intent existing = dictSet ft true formBase := by
              simp [should_offer_forms, hcat, hi, hft, hcond.1, hcond.2]
            rw [he]
            refine ⟨le_of_eq (trueFlags_dictSet_formBase _), flagCount_dictSet_formBase _, ?_⟩
            intro hknown
            refine keys_dictSet_formBase _ ?_
            simp only [formTypeKnown, hft, Bool.or_eq_true, decide_eq_true_eq] at hknown
            rcases hknown with ((((h | h) | h) | h) | h)
            · exact absurd h hcond.1
            · exact Or.inl h
            · exact Or.inr (Or.inl h)
            · exact Or.inr (Or.inr (Or.inl h))
            · exact Or.inr (Or.inr (Or.inr h))
          · have he : should_offer_forms (some c) intent existing = formBase := by
              push_neg at hcond
              by_cases hfe : ft = ""
              · simp [should_offer_forms, hcat, hi, hft, hfe]
              · have hlook : (dictGet? ft existing).getD false = true :=
                  Bool.eq_true_of_ne_false (hcond hfe)
                simp [should_offer_forms, hcat, hi, hft, hlook]
            rw [he]
            exact ⟨by decide, by decide, fun _ => by decide⟩
      · have he : should_offer_forms (some c) intent existing = formBase := by
          simp [should_offer_forms, hcat, hi]
        rw [he]
        exact ⟨by decide, by decide, fun _ => by decide⟩


/-- Counterexample to C2 as stated: a country value whose form type is not
one of the four known keys makes should_offer_forms return a dict with a
fifth key, so the result is not a map over exactly the four keys. -/
theorem claim2_counterexample :
    (should_offer_forms (some vipCountry) Intent.WANT_APPLY []).map Prod.fst ≠
      ["poland", "schengen", "usa", "generic"] := by decide

/-- Claim C2 as amended: for every input at most one value of the returned
dict is true (and at most one of the four known keys); the dict has exactly
the four keys poland, schengen, usa, generic whenever the form type of the
country is recognized — which holds for every database country — and every
analysis produced by analyze has at most one offer flag set. -/
theorem claim2 :
    (∀ (country : Option Country) (intent : Intent) (existing : List (String × Bool)),
      trueFlags (should_offer_forms country intent existing) ≤ 1 ∧
      flagCount (should_offer_forms country intent existing) ≤ 1) ∧
    (∀ (country : Option Country) (intent : Intent) (existing : List (String × Bool)),
      formTypeKnown country = true →
      (should_offer_forms country intent existing).map Prod.fst =
        ["poland", "schengen", "usa", "generic"]) ∧
    (∀ c ∈ countriesData, formTypeKnown (some c) = true) ∧
    (∀ (ld : List Message → Language) (idet : List Message → Intent × Rat)
       (ud : List Message → UrgencyLevel) (sd : List Message → String)
       (wb : String → String → Bool) (cfg : Config) (messages : List Message)
       (our : String) (prev : Option String) (ef : Option (List (String × Bool))),
      offerFlagCount (analyze ld idet ud sd wb cfg messages our prev ef) ≤ 1) := by
  refine ⟨fun c i e => ⟨(sof_props c i e).1, (sof_props c i e).2.1⟩,
          fun c i e h => (sof_props c i e).2.2 h, by decide, ?_⟩
  intro ld idet ud sd wb cfg messages our prev ef
  unfold analyze
  split
  · simp [empty_analysis, offerFlagCount]
  · simpa [offerFlagCount, flagCount] using (sof_props _ _ _).2.1

/-- Witness for C2 as amended at concrete inputs: the generic branch sets
one flag over exactly the four keys, and the GB database country has a
recognized form type. -/
theorem claim2_witness :
    trueFlags (should_offer_forms none Intent.WANT_APPLY []) ≤ 1 ∧
    (should_offer_forms none Intent.WANT_APPLY []).map Prod.fst =
      ["poland", "schengen", "usa", "generic"] ∧
    formTypeKnown (some countryGB) = true :=
  ⟨(claim2.1 none Intent.WANT_APPLY []).1,
   claim2.2.1 none Intent.WANT_APPLY [] (by decide),
   claim2.2.2.1 countryGB (by decide)⟩

/-- Claim C3: an analysis whose detected country is non-standard carries no
offer flag, forwards to the configured escalation address and names the
reason non_standard_country; an analysis with no non-standard detected
country has no forward address — and the selector returns the all-false
dict for every non-standard country. -/
theorem claim3 (ld : List Message → Language) (idet : List Message → Intent × Rat)
    (ud : List Message → UrgencyLevel) (sd : List Message → String)
    (wb : String → String → Bool) (cfg : Config) (messages : List Message)
    (our : String) (prev : Option String) (ef : Option (List (String × Bool))) :
    (∀ c : Country,
      (analyze ld idet ud sd wb cfg messages our prev ef).detected_country = some c →
      c.category = VisaCategory.NON_STANDARD →
      (analyze ld idet ud sd wb cfg messages our prev ef).offer_poland_form = false ∧
      (analyze ld idet ud sd wb cfg messages our prev ef).offer_schengen_form = false ∧
      (analyze ld idet ud sd wb cfg messages our prev ef).offer_usa_form = false ∧
      (analyze ld idet ud sd wb cfg messages our prev ef).offer_generic_form = false ∧
      (analyze ld idet ud sd wb cfg messages our prev ef).forward_to_email =
        some cfg.non_standard_forward_email ∧
      (analyze ld idet ud sd wb cfg messages our prev ef).forward_reason =
        some "non_standard_country") ∧
    ((∀ c : Country,
       (analyze ld idet ud sd wb cfg messages our prev ef).detected_country = some c →
       ¬ c.category = VisaCategory.NON_STANDARD) →
      (analyze ld idet ud sd wb cfg messages our prev ef).forward_to_email = none) ∧
    (∀ (c : Country) (i : Intent) (e : List (String × Bool)),
      c.category = VisaCategory.NON_STANDARD →
      should_offer_forms (some c) i e = formBase) := by
  by_cases hm : messages.isEmpty = true
  · refine ⟨?_, ?_, fun c i e h => sof_nonstandard c i e h⟩
    · intro c hc
      simp [analyze, hm, empty_analysis] at hc
    · intro _
      simp [analyze, hm, empty_analysis]
  · refine ⟨?_, ?_, fun c i e h => sof_nonstandard c i e h⟩
    · intro c hc hcat
      simp only [analyze, hm] at hc ⊢
      simp only [Bool.false_eq_true, if_false] at hc ⊢
      rw [hc]
      rw [sof_nonstandard c _ _ hcat]
      simp [hcat, formBase, dictGet?]
    · intro hall
      simp only [analyze, hm, Bool.false_eq_true, if_false]
      cases hfc : find_country wb (String.intercalate " "
          ((if (messages.filter
              (fun m => lowerPy m.from_address ≠ lowerPy our)).isEmpty
            then messages
            else messages.filter
              (fun m => lowerPy m.from_address ≠ lowerPy our)).map Message.full_text)) with
      | none => simp [hfc]
      | some c =>
        simp only [hfc]
        have hns := hall c (by
          simp only [analyze, hm, Bool.false_eq_true, if_false]
          simp only [hfc])
        simp [hns]


/-- Witness for C3 on a concrete thread mentioning London: the detected
country is the non-standard GB entry, all offer flags are off, and the
thread is forwarded to the configured escalation address. -/
theorem claim3_witness :
    (analyze languageDetect intentDetect urgencyDetect sentimentDetect
      (fun _ _ => false) {} [londonMsg] "RobotVisa@itplus.kz" none none).detected_country =
        some countryGB ∧
    countryGB.category = VisaCategory.NON_STANDARD ∧
    ((analyze languageDetect intentDetect urgencyDetect sentimentDetect
       (fun _ _ => false) {} [londonMsg] "RobotVisa@itplus.kz" none none).offer_poland_form = false ∧
     (analyze languageDetect intentDetect urgencyDetect sentimentDetect
       (fun _ _ => false) {} [londonMsg] "RobotVisa@itplus.kz" none none).offer_schengen_form = false ∧
     (analyze languageDetect intentDetect urgencyDetect sentimentDetect
       (fun _ _ => false) {} [londonMsg] "RobotVisa@itplus.kz" none none).offer_usa_form = false ∧
     (analyze languageDetect intentDetect urgencyDetect sentimentDetect
       (fun _ _ => false) {} [londonMsg] "RobotVisa@itplus.kz" none none).offer_generic_form = false ∧
     (analyze languageDetect intentDetect urgencyDetect sentimentDetect
       (fun _ _ => false) {} [londonMsg] "RobotVisa@itplus.kz" none none).forward_to_email =
         some ({} : Config).non_standard_forward_email ∧
     (analyze languageDetect intentDetect urgencyDetect sentimentDetect
       (fun _ _ => false) {} [londonMsg] "RobotVisa@itplus.kz" none none).forward_reason =
         some "non_standard_country") :=
  ⟨by with_unfolding_all decide, by decide,
   (claim3 languageDetect intentDetect urgencyDetect sentimentDetect
      (fun _ _ => false) {} [londonMsg] "RobotVisa@itplus.kz" none none).1 countryGB
     (by with_unfolding_all decide) (by decide)⟩

/-- The match-collection loop appends exactly the contained keywords with
their code and length, regardless of the word-boundary test: the fallback
branch repeats the same containment check and records the same pair. -/
theorem foldl_matchStep (wb : String → String → Bool) (tl : String) :
    ∀ (l : List (String × String)) (acc : List (String × Nat)),
      l.foldl (matchStep wb tl) acc =
        acc ++ (l.filter (fun kc => containsSub kc.1 tl)).map
          (fun kc => (kc.2, kc.1.length)) := by
  intro l
  induction l with
  | nil => intro acc; simp
  | cons x rest ih =>
    intro acc
    by_cases hc : containsSub x.1 tl = true
    · by_cases hw : wb x.1 tl = true
      · simp [matchStep, hc, hw, ih, List.filter_cons]
      · simp [matchStep, hc, hw, ih, List.filter_cons]
    · simp [matchStep, hc, ih, List.filter_cons]

/-- The simplified match-collection loop of the spec accumulates the same
list. -/
theorem foldl_matchStepSimple (tl : String) :
    ∀ (l : List (String × String)) (acc : List (String × Nat)),
      l.foldl (matchStepSimple tl) acc =
        acc ++ (l.filter (fun kc => containsSub kc.1 tl)).map
          (fun kc => (kc.2, kc.1.length)) := by
  intro l
  induction l with
  | nil => intro acc; simp
  | cons x rest ih =>
    intro acc
    by_cases hc : containsSub x.1 tl = true
    · simp [matchStepSimple, hc, ih, List.filter_cons]
    · simp [matchStepSimple, hc, ih, List.filter_cons]

/-- Claim C10: find_country agrees with the simplified variant that omits
the word-boundary regex check entirely, for every word-boundary predicate
and every input text. -/
theorem claim10 (wb : String → String → Bool) (text : String) :
    find_country wb text = find_country_spec text := by
  simp only [find_country, find_country_spec]
  rw [foldl_matchStep wb (lowerPy text) keywordIndex [],
      foldl_matchStepSimple (lowerPy text) keywordIndex []]

/-- Every code recorded in the keyword index owns an entry of the code
dictionary. -/
theorem codes_have_entries :
    ∀ kc ∈ keywordIndex, (dictGet? kc.2 countriesDict).isSome = true := by
  with_unfolding_all decide

/-- find_country unfolded to the match list, its sort and the final lookup. -/
theorem find_country_cases (wb : String → String → Bool) (text : String) :
    find_country wb text =
      if (matchedPairs (lowerPy text)).isEmpty = true then none
      else match sortByLenDesc (matchedPairs (lowerPy text)) with
        | [] => none
        | best :: _ => dictGet? best.1 countriesDict := by
  simp only [find_country, foldl_matchStep wb (lowerPy text) keywordIndex [],
    List.nil_append, matchedPairs]


/-- Claim C8: find_country returns none exactly when no index keyword is
contained in the lowercased text (in particular on the empty text), and any
returned country is owned — through the code dictionary — by a contained
keyword of maximal length among all contained keywords. -/
theorem claim8 (wb : String → String → Bool) (text : String) :
    (find_country wb text = none ↔
      ∀ kc ∈ keywordIndex, containsSub kc.1 (lowerPy text) = false) ∧
    (∀ c : Country, find_country wb text = some c →
      ∃ kc ∈ keywordIndex, containsSub kc.1 (lowerPy text) = true ∧
        dictGet? kc.2 countriesDict = some c ∧
        ∀ kc2 ∈ keywordIndex, containsSub kc2.1 (lowerPy text) = true →
          kc2.1.length ≤ kc.1.length) ∧
    find_country wb "" = none := by
  haveI htot : IsTotal (String × Nat) (fun a b => b.2 ≤ a.2) :=
    ⟨fun a b => le_total b.2 a.2⟩
  haveI htrans : IsTrans (String × Nat) (fun a b => b.2 ≤ a.2) :=
    ⟨fun a b c hab hbc => le_trans hbc hab⟩
  have hperm : List.Perm (sortByLenDesc (matchedPairs (lowerPy text)))
      (matchedPairs (lowerPy text)) :=
    List.perm_insertionSort _ _
  have hsorted : List.Sorted (fun a b : String × Nat => b.2 ≤ a.2)
      (sortByLenDesc (matchedPairs (lowerPy text))) :=
    List.sorted_insertionSort _ _
  refine ⟨?_, ?_, ?_⟩
  · rw [find_country_cases wb text]
    constructor
    · intro hnone kc hkc
      by_contra hcon
      have hcont : containsSub kc.1 (lowerPy text) = true := by
        simpa using hcon
      have hmem : (kc.2, kc.1.length) ∈ matchedPairs (lowerPy text) :=
        List.mem_map_of_mem _ (List.mem_filter.mpr ⟨hkc, by simpa using hcont⟩)
      have hne : matchedPairs (lowerPy text) ≠ [] := List.ne_nil_of_mem hmem
      rw [if_neg (by simpa [List.isEmpty_iff] using hne)] at hnone
      cases hsort : sortByLenDesc (matchedPairs (lowerPy text)) with
      | nil =>
        rw [hsort] at hperm
        exact hne hperm.symm.eq_nil
      | cons best rest =>
        rw [hsort] at hnone
        have hnone2 : dictGet? best.1 countriesDict = none := hnone
        have hbest : best ∈ matchedPairs (lowerPy text) := by
          rw [hsort] at hperm
          exact hperm.mem_iff.mp (List.mem_cons_self best rest)
        obtain ⟨kcb, hkcbf, hkcbe⟩ := List.mem_map.mp hbest
        have hent := codes_have_entries kcb (List.mem_filter.mp hkcbf).1
        rw [show kcb.2 = best.1 from congrArg Prod.fst hkcbe] at hent
        rw [hnone2] at hent
        simp at hent
    · intro hall
      have hfil : keywordIndex.filter
          (fun kc => containsSub kc.1 (lowerPy text)) = [] :=
        List.filter_eq_nil_iff.mpr (fun kc hkc => by simp [hall kc hkc])
      simp [matchedPairs, hfil]
  · intro c hsome
    rw [find_country_cases wb text] at hsome
    by_cases hempty : (matchedPairs (lowerPy text)).isEmpty = true
    · rw [if_pos hempty] at hsome
      cases hsome
    · rw [if_neg hempty] at hsome
      cases hsort : sortByLenDesc (matchedPairs (lowerPy text)) with
      | nil =>
        rw [hsort] at hperm
        rw [List.isEmpty_iff] at hempty
        exact absurd hperm.symm.eq_nil hempty
      | cons best rest =>
        rw [hsort] at hsome hperm hsorted
        have hsome2 : dictGet? best.1 countriesDict = some c := hsome
        have hbest : best ∈ matchedPairs (lowerPy text) :=
          hperm.mem_iff.mp (List.mem_cons_self best rest)
        obtain ⟨kcb, hkcbf, hkcbe⟩ := List.mem_map.mp hbest
        have hkcb_mem : kcb ∈ keywordIndex := (List.mem_filter.mp hkcbf).1
        have hkcb_cont : containsSub kcb.1 (lowerPy text) = true := by
          simpa using (List.mem_filter.mp hkcbf).2
        have hsnd : best.2 = kcb.1.length := (congrArg Prod.snd hkcbe).symm
        refine ⟨kcb, hkcb_mem, hkcb_cont, ?_, ?_⟩
        · rw [show kcb.2 = best.1 from congrArg Prod.fst hkcbe]
          exact hsome2
        · intro kc2 h2mem h2cont
          have h2pair : (kc2.2, kc2.1.length) ∈ matchedPairs (lowerPy text) :=
            List.mem_map_of_mem _ (List.mem_filter.mpr ⟨h2mem, by simpa using h2cont⟩)
          have h2sorted : (kc2.2, kc2.1.length) ∈ best :: rest :=
            hperm.symm.mem_iff.mp h2pair
          rcases List.mem_cons.mp h2sorted with heq | hrest
          · rw [← hsnd]
            exact le_of_eq (congrArg Prod.snd heq)
          · have hrel := (List.sorted_cons.mp hsorted).1 _ hrest
            rw [← hsnd]
            exact hrel
  · rw [find_country_cases wb ""]
    have hempty : (matchedPairs (lowerPy "")).isEmpty = true := by
      with_unfolding_all decide
    rw [if_pos hempty]


/-- Witness for C8: on the text london the returned country is the GB
entry, owned by a contained keyword of maximal length, and a text matching
no keyword returns none. -/
theorem claim8_witness :
    find_country (fun _ _ => false) "london" = some countryGB ∧
    (∃ kc ∈ keywordIndex, containsSub kc.1 (lowerPy "london") = true ∧
      dictGet? kc.2 countriesDict = some countryGB ∧
      ∀ kc2 ∈ keywordIndex, containsSub kc2.1 (lowerPy "london") = true →
        kc2.1.length ≤ kc.1.length) ∧
    find_country (fun _ _ => false) "hello" = none :=
  ⟨by with_unfolding_all decide,
   (claim8 (fun _ _ => false) "london").2.1 countryGB (by with_unfolding_all decide),
   ((claim8 (fun _ _ => false) "hello").1).mpr (by with_unfolding_all decide)⟩

end VisaBot
